import Mathlib

/-!
Formal model of the libosmium PBF output subsystem.

The definitions below are shallow embeddings of the C++ sources of the
repository: `include/osmium/osm/item_type.hpp` and
`include/osmium/io/detail/pbf_output_format.hpp`.  Machine integers are
modelled as `Nat`/`Int` with explicit `% 2^w` where the C++ code casts;
byte strings are `List Nat`; C++ `double` coordinates are modelled as exact
rationals.  Helper code of the repository that lives outside the provided
sources (the string table, the delta encoder, the protobuf wire format
constants, the compression option helpers) is modelled from the
specification and each such definition says so in its doc comment.
-/

namespace Osmium

/-- OSM item types, from the `osmium::item_type` enum in osm/item_type.hpp. -/
inductive item_type where
  | undefined
  | node
  | way
  | relation
  | area
  | changeset
  | tag_list
  | way_node_list
  | relation_member_list
  | relation_member_list_with_full_members
  | outer_ring
  | inner_ring
deriving DecidableEq, Repr

/-- `char_to_item_type` from osm/item_type.hpp: the `switch` on the character
code; any character that is not one of the twelve recognized codes falls into
the `default:` branch and yields `item_type::undefined`. -/
def char_to_item_type (c : Char) : item_type :=
  if c = 'X' then item_type.undefined
  else if c = 'n' then item_type.node
  else if c = 'w' then item_type.way
  else if c = 'r' then item_type.relation
  else if c = 'a' then item_type.area
  else if c = 'c' then item_type.changeset
  else if c = 'T' then item_type.tag_list
  else if c = 'N' then item_type.way_node_list
  else if c = 'M' then item_type.relation_member_list
  else if c = 'F' then item_type.relation_member_list_with_full_members
  else if c = 'O' then item_type.outer_ring
  else if c = 'I' then item_type.inner_ring
  else item_type.undefined

/-- `item_type_to_char` from osm/item_type.hpp: the inverse character table. -/
def item_type_to_char (t : item_type) : Char :=
  match t with
  | item_type.undefined => 'X'
  | item_type.node => 'n'
  | item_type.way => 'w'
  | item_type.relation => 'r'
  | item_type.area => 'a'
  | item_type.changeset => 'c'
  | item_type.tag_list => 'T'
  | item_type.way_node_list => 'N'
  | item_type.relation_member_list => 'M'
  | item_type.relation_member_list_with_full_members => 'F'
  | item_type.outer_ring => 'O'
  | item_type.inner_ring => 'I'

/-- The twelve character codes recognized by `char_to_item_type`. -/
def item_type_codes : List Char :=
  ['X', 'n', 'w', 'r', 'a', 'c', 'T', 'N', 'M', 'F', 'O', 'I']

/-- C10: for every value `t` of the `item_type` enumeration,
`char_to_item_type (item_type_to_char t) = t`; and for every character `c`
outside the twelve recognized codes, `char_to_item_type c` returns
`item_type.undefined`. -/
theorem char_to_item_type_roundtrip :
    (∀ t : item_type, char_to_item_type (item_type_to_char t) = t) ∧
    (∀ c : Char, c ∉ item_type_codes → char_to_item_type c = item_type.undefined) := by
  constructor
  · intro t
    cases t <;> rfl
  · intro c hc
    simp only [item_type_codes, List.mem_cons, List.not_mem_nil, or_false, not_or] at hc
    obtain ⟨h1, h2, h3, h4, h5, h6, h7, h8, h9, h10, h11, h12⟩ := hc
    simp [char_to_item_type, h1, h2, h3, h4, h5, h6, h7, h8, h9, h10, h11, h12]

/-- Witness for C10 at concrete inputs: the round trip at `way` and the
default branch at the unrecognized character `z`. -/
theorem char_to_item_type_roundtrip_witness :
    char_to_item_type (item_type_to_char item_type.way) = item_type.way ∧
    ('z' ∉ item_type_codes ∧ char_to_item_type 'z' = item_type.undefined) :=
  ⟨char_to_item_type_roundtrip.1 item_type.way,
   by decide,
   char_to_item_type_roundtrip.2 'z' (by decide)⟩

/-! ## Protobuf wire-format primitives

The encoder uses the protozero builder library, which is an external
dependency.  The byte-level encodings below are modelled from the spec:
the wire format must be byte-compatible with the protobuf encodings named
per field (varints, zig-zag `sint*` fields, length-delimited fields), and
packed fields written from an iterator range are omitted when the range is
empty. -/

/-- Protobuf base-128 varint encoding of a natural number.  Modelled from
the spec: all integer fields use protobuf varint encodings. -/
def varint (n : Nat) : List Nat :=
  if h : n < 128 then [n]
  else (n % 128 + 128) :: varint (n / 128)
decreasing_by exact Nat.div_lt_self (by omega) (by omega)

/-- Zig-zag encoding of a signed 64-bit value, used by `sint64` fields.
Modelled from the spec: `sint*` fields use zig-zag encoding. -/
def zigzag64 (i : Int) : Nat :=
  if 0 ≤ i then (2 * i).toNat else (-2 * i - 1).toNat

/-- Zig-zag encoding of a signed 32-bit value, used by `sint32` fields.
Modelled from the spec: `sint*` fields use zig-zag encoding. -/
def zigzag32 (i : Int) : Nat :=
  if 0 ≤ i then (2 * i).toNat else (-2 * i - 1).toNat

/-- C++ conversion of an integer to `uint64_t` (reduction mod `2 ^ 64`),
applied by the protobuf library before writing `int32`/`int64` fields as
varints. -/
def uint64_cast (x : Int) : Nat :=
  (x % 2 ^ 64).toNat

/-- C++ conversion of an integer to `uint32_t` (reduction mod `2 ^ 32`). -/
def uint32_cast (x : Int) : Nat :=
  (x % 2 ^ 32).toNat

/-- C++ conversion of an integer to `int32_t` (two's complement wrap into
`[-2 ^ 31, 2 ^ 31)`). -/
def int32_cast (x : Int) : Int :=
  (x + 2 ^ 31) % 2 ^ 32 - 2 ^ 31

/-- The key byte sequence of a protobuf field: varint of
`field_number * 8 + wire_type`. -/
def field_key (field : Nat) (wire : Nat) : List Nat :=
  varint (field * 8 + wire)

/-- A length-delimited protobuf field (wire type 2): key, payload length,
payload.  Used for strings, bytes, sub-messages and packed arrays. -/
def len_field (field : Nat) (payload : List Nat) : List Nat :=
  field_key field 2 ++ varint payload.length ++ payload

/-- A varint protobuf field (wire type 0). -/
def varint_field (field : Nat) (value : Nat) : List Nat :=
  field_key field 0 ++ varint value

/-- An `int64` protobuf field: the value is cast to `uint64` and written as
a varint. -/
def int64_field (field : Nat) (value : Int) : List Nat :=
  varint_field field (uint64_cast value)

/-- An `int32` protobuf field: the value is sign-extended to 64 bit and
written as a varint. -/
def int32_field (field : Nat) (value : Int) : List Nat :=
  varint_field field (uint64_cast value)

/-- An `sint64` protobuf field: zig-zag encoded varint. -/
def sint64_field (field : Nat) (value : Int) : List Nat :=
  varint_field field (zigzag64 value)

/-- A packed `sint64` field: omitted when the value list is empty, else a
length-delimited field holding the zig-zag varints of all values. -/
def packed_sint64 (field : Nat) (values : List Int) : List Nat :=
  if values = [] then []
  else len_field field (values.flatMap fun v => varint (zigzag64 v))

/-- A packed `sint32` field: omitted when empty. -/
def packed_sint32 (field : Nat) (values : List Int) : List Nat :=
  if values = [] then []
  else len_field field (values.flatMap fun v => varint (zigzag32 v))

/-- A packed `int32` field: omitted when empty; each value is sign-extended
to 64 bit before varint encoding. -/
def packed_int32 (field : Nat) (values : List Int) : List Nat :=
  if values = [] then []
  else len_field field (values.flatMap fun v => varint (uint64_cast v))

/-- A packed `uint32` field: omitted when empty. -/
def packed_uint32 (field : Nat) (values : List Nat) : List Nat :=
  if values = [] then []
  else len_field field (values.flatMap fun v => varint v)

/-- A packed `bool` field: omitted when empty; one varint byte per value. -/
def packed_bool (field : Nat) (values : List Bool) : List Nat :=
  if values = [] then []
  else len_field field (values.flatMap fun v => varint (if v then 1 else 0))

/-- The 4-byte big-endian representation of a 32-bit size. -/
def be32 (n : Nat) : List Nat :=
  [n / 2 ^ 24 % 256, n / 2 ^ 16 % 256, n / 2 ^ 8 % 256, n % 256]

/-! ## Blob framing (SerializeBlob) -/

/-- Modelled from the spec: `max_uncompressed_blob_size` is declared in
io/detail/pbf.hpp, which is not among the sources; the spec fixes
`MAX_UNCOMPRESSED_BLOB_SIZE = 16 * 1024 * 1024` (soft limit). -/
def max_uncompressed_blob_size : Nat := 16 * 1024 * 1024

/-- `pbf_compression` from io/detail/pbf.hpp (values per the spec:
`none`, `zlib`, `lz4`). -/
inductive pbf_compression where
  | none
  | zlib
  | lz4
deriving DecidableEq, Repr

/-- `pbf_blob_type` from pbf_output_format.hpp. -/
inductive pbf_blob_type where
  | header
  | data
deriving DecidableEq, Repr

/-- Modelled from the spec: field numbers of the `BlobHeader` message
(io/detail/protobuf_tags.hpp is not among the sources; the OSMPBF file
format fixes `type = 1` and `datasize = 3`). -/
def BlobHeader_required_string_type : Nat := 1

/-- Modelled from the spec: `BlobHeader.datasize` field number. -/
def BlobHeader_required_int32_datasize : Nat := 3

/-- Modelled from the spec: `Blob.raw` field number. -/
def Blob_optional_bytes_raw : Nat := 1

/-- Modelled from the spec: `Blob.raw_size` field number. -/
def Blob_optional_int32_raw_size : Nat := 2

/-- Modelled from the spec: `Blob.zlib_data` field number. -/
def Blob_optional_bytes_zlib_data : Nat := 3

/-- Modelled from the spec: `Blob.lz4_data` field number. -/
def Blob_optional_bytes_lz4_data : Nat := 6

/-- The ASCII bytes of the string `OSMHeader`. -/
def osm_header_type_bytes : List Nat := [79, 83, 77, 72, 101, 97, 100, 101, 114]

/-- The ASCII bytes of the string `OSMData`. -/
def osm_data_type_bytes : List Nat := [79, 83, 77, 68, 97, 116, 97]

/-- The state of a `SerializeBlob` job (pbf_output_format.hpp, class
`SerializeBlob`): the serialized message, the compression level, the blob
type and the compression algorithm. -/
structure SerializeBlob where
  m_msg : List Nat
  m_compression_level : Int
  m_blob_type : pbf_blob_type
  m_use_compression : pbf_compression
deriving Repr

/-- The body of the `Blob` message built by `SerializeBlob::operator()`:
raw bytes for `none`; `raw_size` plus compressed bytes for `zlib`/`lz4`.
The zlib and lz4 compressors are external libraries and are passed in as
functions; when the build has no lz4 support the lz4 branch throws
`pbf_error("lz4 blobs not supported")`. -/
def SerializeBlob.blob_body (lz4_supported : Bool)
    (zlib_compress : List Nat → Int → List Nat)
    (lz4_compress : List Nat → Int → List Nat)
    (sb : SerializeBlob) : Except String (List Nat) :=
  match sb.m_use_compression with
  | pbf_compression.none =>
      Except.ok (len_field Blob_optional_bytes_raw sb.m_msg)
  | pbf_compression.zlib =>
      Except.ok (int32_field Blob_optional_int32_raw_size (int32_cast sb.m_msg.length) ++
        len_field Blob_optional_bytes_zlib_data (zlib_compress sb.m_msg sb.m_compression_level))
  | pbf_compression.lz4 =>
      if lz4_supported then
        Except.ok (int32_field Blob_optional_int32_raw_size (int32_cast sb.m_msg.length) ++
          len_field Blob_optional_bytes_lz4_data (lz4_compress sb.m_msg sb.m_compression_level))
      else
        Except.error "lz4 blobs not supported"

/-- The `BlobHeader` message built by `SerializeBlob::operator()`: the type
string (`OSMData` for data blobs, `OSMHeader` for header blobs) followed by
the `datasize` field holding the `int32`-cast byte length of the `Blob`
message. -/
def SerializeBlob.blob_header (sb : SerializeBlob) (blob_data : List Nat) : List Nat :=
  len_field BlobHeader_required_string_type
    (if sb.m_blob_type = pbf_blob_type.data then osm_data_type_bytes else osm_header_type_bytes) ++
  int32_field BlobHeader_required_int32_datasize (int32_cast blob_data.length)

/-- `SerializeBlob::operator()` from pbf_output_format.hpp: build the `Blob`
message, build the `BlobHeader` message, and emit the 4-byte big-endian
`BlobHeader` size followed by the `BlobHeader` and the `Blob`. -/
def SerializeBlob.run (lz4_supported : Bool)
    (zlib_compress : List Nat → Int → List Nat)
    (lz4_compress : List Nat → Int → List Nat)
    (sb : SerializeBlob) : Except String (List Nat) :=
  match sb.blob_body lz4_supported zlib_compress lz4_compress with
  | Except.error e => Except.error e
  | Except.ok blob_data =>
      let blob_header_data := sb.blob_header blob_data
      Except.ok (be32 blob_header_data.length ++ blob_header_data ++ blob_data)

theorem int32_cast_of_small {x : Int} (h0 : 0 ≤ x) (h1 : x < 2 ^ 31) :
    int32_cast x = x := by
  unfold int32_cast
  omega

theorem uint64_cast_of_small {x : Int} (h0 : 0 ≤ x) (h1 : x < 2 ^ 64) :
    uint64_cast x = x.toNat := by
  unfold uint64_cast
  omega

theorem uint32_cast_of_small {x : Int} (h0 : 0 ≤ x) (h1 : x < 2 ^ 32) :
    uint32_cast x = x.toNat := by
  unfold uint32_cast
  omega

/-- C2: for every payload and blob kind, `SerializeBlob` produces exactly the
4-byte big-endian size of the `BlobHeader` message, then the `BlobHeader`
message, then the `Blob` message; the `BlobHeader` type string is `OSMHeader`
for header blobs and `OSMData` for data blobs, and its `datasize` field holds
the byte length of the following `Blob` message.  The hypotheses name the
`Blob` message produced for the payload and require its length to fit in
`int32`, matching the source's `static_cast<int32_t>` comment. -/
theorem serialize_blob_framing (lz4_supported : Bool)
    (zlib_compress lz4_compress : List Nat → Int → List Nat)
    (sb : SerializeBlob) (blob_data : List Nat)
    (hbody : sb.blob_body lz4_supported zlib_compress lz4_compress = Except.ok blob_data)
    (hfit : blob_data.length < 2 ^ 31) :
    SerializeBlob.run lz4_supported zlib_compress lz4_compress sb =
      Except.ok (be32 (sb.blob_header blob_data).length ++
        sb.blob_header blob_data ++ blob_data) ∧
    sb.blob_header blob_data =
      len_field BlobHeader_required_string_type
        (if sb.m_blob_type = pbf_blob_type.data then osm_data_type_bytes
         else osm_header_type_bytes) ++
      varint_field BlobHeader_required_int32_datasize blob_data.length := by
  constructor
  · unfold SerializeBlob.run
    rw [hbody]
  · unfold SerializeBlob.blob_header int32_field
    rw [int32_cast_of_small (by positivity) (by exact_mod_cast hfit),
        uint64_cast_of_small (by positivity) (by exact_mod_cast lt_trans hfit (by norm_num))]
    rw [Int.toNat_natCast]

/-- Witness for C2: a 3-byte payload framed as an uncompressed data blob. -/
theorem serialize_blob_framing_witness :
    SerializeBlob.run false (fun m _ => m) (fun m _ => m)
        ⟨[1, 2, 3], 0, pbf_blob_type.data, pbf_compression.none⟩ =
      Except.ok
        (be32 (SerializeBlob.blob_header
            ⟨[1, 2, 3], 0, pbf_blob_type.data, pbf_compression.none⟩
            (len_field Blob_optional_bytes_raw [1, 2, 3])).length ++
         SerializeBlob.blob_header
            ⟨[1, 2, 3], 0, pbf_blob_type.data, pbf_compression.none⟩
            (len_field Blob_optional_bytes_raw [1, 2, 3]) ++
         len_field Blob_optional_bytes_raw [1, 2, 3]) :=
  (serialize_blob_framing false (fun m _ => m) (fun m _ => m)
      ⟨[1, 2, 3], 0, pbf_blob_type.data, pbf_compression.none⟩
      (len_field Blob_optional_bytes_raw [1, 2, 3]) rfl
      (by simp only [Blob_optional_bytes_raw]
          simp [len_field, field_key, varint])).1

/-! ## String table, options and entity model -/

/-- Modelled from the spec: the per-block string table
(io/detail/string_table.hpp is not among the sources).  It is an
insertion-ordered deduplicating dictionary; index 0 is reserved and
pre-inserted as the empty string. -/
abbrev StringTable := List String

/-- A freshly constructed (or cleared) string table: only the reserved empty
entry at index 0. -/
def StringTable.init : StringTable := [""]

/-- Modelled from the spec: `StringTable::add` returns the index of the
string when it is already present, else appends it and returns the new
index. -/
def StringTable.add (st : StringTable) (s : String) : StringTable × Nat :=
  let i := st.indexOf s
  if i < st.length then (st, i) else (st ++ [s], st.length)

/-- Modelled from the spec: the string-table contribution to the block size
estimate is its accumulated bytes. -/
def StringTable.byte_size (st : StringTable) : Nat :=
  (st.map String.length).sum

/-- Modelled from the spec: the stateful delta encoder (util/delta.hpp is
not among the sources).  `update` returns `x - prev` and sets `prev = x`;
the initial state is zero. -/
def DeltaEncode.update (prev : Int) (x : Int) : Int × Int :=
  (x - prev, x)

/-- Modelled from the spec: the flag queries of `osmium::metadata_options`
(osm/metadata_options.hpp is not among the sources) used by the encoder. -/
structure metadata_options where
  version : Bool
  timestamp : Bool
  changeset : Bool
  uid : Bool
  user : Bool
deriving DecidableEq, Repr

/-- `metadata_options::any()`: at least one metadata flag is enabled. -/
def metadata_options.any (m : metadata_options) : Bool :=
  m.version || m.timestamp || m.changeset || m.uid || m.user

/-- No metadata fields. -/
def metadata_options.none_set : metadata_options :=
  ⟨false, false, false, false, false⟩

/-- All metadata fields. -/
def metadata_options.all_set : metadata_options :=
  ⟨true, true, true, true, true⟩

/-- `pbf_output_options` from pbf_output_format.hpp. -/
structure pbf_output_options where
  add_metadata : metadata_options
  compression_level : Int
  use_compression : pbf_compression
  use_dense_nodes : Bool
  add_historical_information_flag : Bool
  add_visible_flag : Bool
  locations_on_ways : Bool
deriving DecidableEq, Repr

/-- The common data of an OSM object read by the encoder (the in-memory
entity model is an external collaborator).  The timestamp is kept as an
unbounded integer of seconds so that the encoder's `uint32_t` casts are
visible in the model. -/
structure OSMObject where
  id : Int
  version : Nat
  timestamp : Int
  changeset : Int
  uid : Int
  user : String
  visible : Bool
  tags : List (String × String)
deriving Repr

/-- A node: an OSM object with a location, in degrees, modelled as exact
rationals. -/
structure Node extends OSMObject where
  lat : ℚ
  lon : ℚ

/-- A node reference inside a way: the referenced node id and an optional
location (degrees as exact rationals). -/
structure NodeRef where
  ref : Int
  lon : ℚ
  lat : ℚ

/-- A way: an OSM object with an ordered list of node references. -/
structure Way extends OSMObject where
  nodes : List NodeRef

/-- `max_entities_per_block` from pbf_output_format.hpp. -/
def max_entities_per_block : Nat := 8000

/-- `location_granularity` from pbf_output_format.hpp: 100 nanodegrees. -/
def location_granularity : Int := 100

/-- Modelled from the spec: `lonlat_resolution` (io/detail/pbf.hpp is not
among the sources).  The wire format must be byte-compatible with the OSMPBF
format, whose coordinate unit is the nanodegree, and the spec's block
scenarios store `lat = 1.0` as `10000000` at granularity 100; both fix the
factor converting degrees to integer units at `10 ^ 9` nanodegrees per
degree. -/
def lonlat_resolution : Int := 1000 * 1000 * 1000

/-- `std::round` on an exact value: round half away from zero. -/
def round_half_away (q : ℚ) : Int :=
  if 0 ≤ q then ⌊q + 1 / 2⌋ else ⌈q - 1 / 2⌉

/-- `lonlat2int` from pbf_output_format.hpp: convert a degree coordinate to
a fixed-point integer respecting the granularity. -/
def lonlat2int (lonlat : ℚ) : Int :=
  round_half_away (lonlat * lonlat_resolution / location_granularity)

/-! ## DenseNodes -/

/-- The columnar buffer of class `DenseNodes` (pbf_output_format.hpp): the
parallel arrays plus the states of the delta encoders.  The enclosing
block's string table is threaded through the operations explicitly since
the C++ object holds a pointer to it. -/
structure DenseNodes where
  m_ids : List Int
  m_versions : List Int
  m_timestamps : List Int
  m_changesets : List Int
  m_uids : List Int
  m_user_sids : List Int
  m_visibles : List Bool
  m_lats : List Int
  m_lons : List Int
  m_tags : List Int
  m_delta_id : Int
  m_delta_timestamp : Int
  m_delta_changeset : Int
  m_delta_uid : Int
  m_delta_user_sid : Int
  m_delta_lat : Int
  m_delta_lon : Int
deriving Repr

/-- A freshly constructed `DenseNodes`: empty arrays, zero delta states. -/
def DenseNodes.init : DenseNodes :=
  ⟨[], [], [], [], [], [], [], [], [], [], 0, 0, 0, 0, 0, 0, 0⟩

/-- `DenseNodes::size()`: the approximate footprint
`m_ids.size() * 3 * sizeof(int64_t)`. -/
def DenseNodes.size (d : DenseNodes) : Nat :=
  d.m_ids.length * 3 * 8

/-- The tag loop at the end of `DenseNodes::add_node`: for each tag append
the string-table indices of its key and of its value to `m_tags`. -/
def add_tag_pairs (st : StringTable) (tags : List (String × String))
    (acc : List Int) : StringTable × List Int :=
  match tags with
  | [] => (st, acc)
  | (k, v) :: rest =>
      let (st1, ki) := st.add k
      let (st2, vi) := st1.add v
      add_tag_pairs st2 rest (acc ++ [(ki : Int), (vi : Int)])

/-- `DenseNodes::add_node` from pbf_output_format.hpp: delta-encode the id;
push the metadata columns guarded by their flags (the timestamp is cast to
`uint32_t` before delta encoding); delta-encode the fixed-point coordinates;
append the tag key/value indices followed by the `0` sentinel. -/
def DenseNodes.add_node (opts : pbf_output_options) (d : DenseNodes)
    (st : StringTable) (node : Node) : DenseNodes × StringTable :=
  let (id_delta, id_state) := DeltaEncode.update d.m_delta_id node.id
  let m_versions :=
    if opts.add_metadata.version then d.m_versions ++ [(node.version : Int)]
    else d.m_versions
  let ts : Int := uint32_cast node.timestamp
  let (ts_delta, ts_state) := DeltaEncode.update d.m_delta_timestamp ts
  let m_timestamps :=
    if opts.add_metadata.timestamp then d.m_timestamps ++ [ts_delta]
    else d.m_timestamps
  let m_delta_timestamp :=
    if opts.add_metadata.timestamp then ts_state else d.m_delta_timestamp
  let (cs_delta, cs_state) := DeltaEncode.update d.m_delta_changeset node.changeset
  let m_changesets :=
    if opts.add_metadata.changeset then d.m_changesets ++ [cs_delta]
    else d.m_changesets
  let m_delta_changeset :=
    if opts.add_metadata.changeset then cs_state else d.m_delta_changeset
  let (uid_delta, uid_state) := DeltaEncode.update d.m_delta_uid node.uid
  let m_uids :=
    if opts.add_metadata.uid then d.m_uids ++ [uid_delta] else d.m_uids
  let m_delta_uid :=
    if opts.add_metadata.uid then uid_state else d.m_delta_uid
  let (st1, m_user_sids, m_delta_user_sid) :=
    if opts.add_metadata.user then
      let (st1, sid) := st.add node.user
      let (sid_delta, sid_state) := DeltaEncode.update d.m_delta_user_sid (sid : Int)
      (st1, d.m_user_sids ++ [sid_delta], sid_state)
    else (st, d.m_user_sids, d.m_delta_user_sid)
  let m_visibles :=
    if opts.add_visible_flag then d.m_visibles ++ [node.visible] else d.m_visibles
  let (lat_delta, lat_state) := DeltaEncode.update d.m_delta_lat (lonlat2int node.lat)
  let (lon_delta, lon_state) := DeltaEncode.update d.m_delta_lon (lonlat2int node.lon)
  let (st2, tag_pairs) := add_tag_pairs st1 node.tags d.m_tags
  ({ m_ids := d.m_ids ++ [id_delta]
     m_versions := m_versions
     m_timestamps := m_timestamps
     m_changesets := m_changesets
     m_uids := m_uids
     m_user_sids := m_user_sids
     m_visibles := m_visibles
     m_lats := d.m_lats ++ [lat_delta]
     m_lons := d.m_lons ++ [lon_delta]
     m_tags := tag_pairs ++ [0]
     m_delta_id := id_state
     m_delta_timestamp := m_delta_timestamp
     m_delta_changeset := m_delta_changeset
     m_delta_uid := m_delta_uid
     m_delta_user_sid := m_delta_user_sid
     m_delta_lat := lat_state
     m_delta_lon := lon_state }, st2)

/-- Adding a whole sequence of nodes to a fresh `DenseNodes` buffer with a
fresh string table. -/
def DenseNodes.add_all (opts : pbf_output_options) (nodes : List Node) :
    DenseNodes × StringTable :=
  nodes.foldl (fun p n => DenseNodes.add_node opts p.1 p.2 n)
    (DenseNodes.init, StringTable.init)

/-- Modelled from the spec: `DenseNodes.id` field number in the OSMPBF
format (io/detail/protobuf_tags.hpp is not among the sources). -/
def DenseNodes_packed_sint64_id : Nat := 1

/-- Modelled from the spec: `DenseNodes.denseinfo` field number. -/
def DenseNodes_optional_DenseInfo_denseinfo : Nat := 5

/-- Modelled from the spec: `DenseNodes.lat` field number. -/
def DenseNodes_packed_sint64_lat : Nat := 8

/-- Modelled from the spec: `DenseNodes.lon` field number. -/
def DenseNodes_packed_sint64_lon : Nat := 9

/-- Modelled from the spec: `DenseNodes.keys_vals` field number. -/
def DenseNodes_packed_int32_keys_vals : Nat := 10

/-- Modelled from the spec: `DenseInfo.version` field number. -/
def DenseInfo_packed_int32_version : Nat := 1

/-- Modelled from the spec: `DenseInfo.timestamp` field number. -/
def DenseInfo_packed_sint64_timestamp : Nat := 2

/-- Modelled from the spec: `DenseInfo.changeset` field number. -/
def DenseInfo_packed_sint64_changeset : Nat := 3

/-- Modelled from the spec: `DenseInfo.uid` field number. -/
def DenseInfo_packed_sint32_uid : Nat := 4

/-- Modelled from the spec: `DenseInfo.user_sid` field number. -/
def DenseInfo_packed_sint32_user_sid : Nat := 5

/-- Modelled from the spec: `DenseInfo.visible` field number. -/
def DenseInfo_packed_bool_visible : Nat := 6

/-- The `DenseInfo` sub-message body built inside `DenseNodes::serialize`:
the six packed columns, each written only when its flag is enabled. -/
def DenseNodes.denseinfo_body (opts : pbf_output_options) (d : DenseNodes) :
    List Nat :=
  (if opts.add_metadata.version then
    packed_int32 DenseInfo_packed_int32_version d.m_versions else []) ++
  (if opts.add_metadata.timestamp then
    packed_sint64 DenseInfo_packed_sint64_timestamp d.m_timestamps else []) ++
  (if opts.add_metadata.changeset then
    packed_sint64 DenseInfo_packed_sint64_changeset d.m_changesets else []) ++
  (if opts.add_metadata.uid then
    packed_sint32 DenseInfo_packed_sint32_uid d.m_uids else []) ++
  (if opts.add_metadata.user then
    packed_sint32 DenseInfo_packed_sint32_user_sid d.m_user_sids else []) ++
  (if opts.add_visible_flag then
    packed_bool DenseInfo_packed_bool_visible d.m_visibles else [])

/-- `DenseNodes::serialize` from pbf_output_format.hpp: the packed id array;
the `DenseInfo` sub-message when any metadata flag or the visible flag is
enabled; the packed lat and lon arrays; the packed tag array. -/
def DenseNodes.serialize (opts : pbf_output_options) (d : DenseNodes) :
    List Nat :=
  let data := packed_sint64 DenseNodes_packed_sint64_id d.m_ids
  let data := data ++
    (if opts.add_metadata.any || opts.add_visible_flag then
      len_field DenseNodes_optional_DenseInfo_denseinfo (d.denseinfo_body opts)
    else [])
  let data := data ++ packed_sint64 DenseNodes_packed_sint64_lat d.m_lats
  let data := data ++ packed_sint64 DenseNodes_packed_sint64_lon d.m_lons
  let data := data ++ packed_int32 DenseNodes_packed_int32_keys_vals d.m_tags
  data

/-- C3: for every sequence of added nodes and every options setting,
`DenseNodes::serialize` emits the packed ids; then the `DenseInfo`
sub-message (its columns each present only when the corresponding flag — or
for visibles the `add_visible_flag` — is enabled), itself present only when
at least one such flag is enabled; then the packed lats; then the packed
lons; then the packed keys_vals. -/
theorem dense_nodes_serialize_field_order (opts : pbf_output_options)
    (nodes : List Node) :
    DenseNodes.serialize opts (DenseNodes.add_all opts nodes).1 =
      packed_sint64 DenseNodes_packed_sint64_id
        (DenseNodes.add_all opts nodes).1.m_ids ++
      (if opts.add_metadata.any || opts.add_visible_flag then
        len_field DenseNodes_optional_DenseInfo_denseinfo
          ((if opts.add_metadata.version then
              packed_int32 DenseInfo_packed_int32_version
                (DenseNodes.add_all opts nodes).1.m_versions else []) ++
           (if opts.add_metadata.timestamp then
              packed_sint64 DenseInfo_packed_sint64_timestamp
                (DenseNodes.add_all opts nodes).1.m_timestamps else []) ++
           (if opts.add_metadata.changeset then
              packed_sint64 DenseInfo_packed_sint64_changeset
                (DenseNodes.add_all opts nodes).1.m_changesets else []) ++
           (if opts.add_metadata.uid then
              packed_sint32 DenseInfo_packed_sint32_uid
                (DenseNodes.add_all opts nodes).1.m_uids else []) ++
           (if opts.add_metadata.user then
              packed_sint32 DenseInfo_packed_sint32_user_sid
                (DenseNodes.add_all opts nodes).1.m_user_sids else []) ++
           (if opts.add_visible_flag then
              packed_bool DenseInfo_packed_bool_visible
                (DenseNodes.add_all opts nodes).1.m_visibles else []))
      else []) ++
      packed_sint64 DenseNodes_packed_sint64_lat
        (DenseNodes.add_all opts nodes).1.m_lats ++
      packed_sint64 DenseNodes_packed_sint64_lon
        (DenseNodes.add_all opts nodes).1.m_lons ++
      packed_int32 DenseNodes_packed_int32_keys_vals
        (DenseNodes.add_all opts nodes).1.m_tags := by
  simp [DenseNodes.serialize, DenseNodes.denseinfo_body, List.append_assoc]

/-- The default options of the encoder: dense nodes, zlib compression at the
codec's default level, all metadata (the default of the `add_metadata`
option), no visible flag, no locations on ways. -/
def default_options : pbf_output_options :=
  ⟨metadata_options.all_set, -1, pbf_compression.zlib, true, false, false, false⟩

/-- The single node of the spec's second end-to-end scenario: id 1,
`lat = 1.0000000`, `lon = 2.0000000`, no tags, no metadata. -/
def example_node : Node :=
  { id := 1, version := 0, timestamp := 0, changeset := 0, uid := 0,
    user := "", visible := true, tags := [], lat := 1, lon := 2 }

/-- C4 counterexample: the stored fixed-point value for `lat = 1.0` is
`10000000` (as the claim's concrete instance requires), but the claim's
formula `round(c * 10^7 / granularity)` with `granularity = 100` gives
`100000` at `c = 1`; the two parts of the claim contradict each other and
the formula part contradicts the code. -/
theorem lonlat2int_formula_counterexample :
    lonlat2int 1 = 10000000 ∧
    round_half_away ((1 : ℚ) * 10 ^ 7 / 100) = 100000 ∧
    (10000000 : Int) ≠ 100000 := by
  refine ⟨?_, ?_, by decide⟩
  · norm_num [lonlat2int, round_half_away, lonlat_resolution, location_granularity]
  · norm_num [round_half_away]

/-- C4 (amended): the fixed-point integer stored for a coordinate `c` in
degrees is `round(c * lonlat_resolution / granularity)` where
`lonlat_resolution = 10^9` (nanodegrees per degree) and `granularity = 100`;
in particular a single node with `lat = 1.0000000` and `lon = 2.0000000`
under default options is stored with `lats = [10000000]` and
`lons = [20000000]`. -/
theorem lonlat2int_fixed_point :
    (∀ c : ℚ, lonlat2int c = round_half_away (c * (1000 * 1000 * 1000) / 100)) ∧
    (∀ (opts : pbf_output_options) (n : Node),
      (DenseNodes.add_node opts DenseNodes.init StringTable.init n).1.m_lats =
        [lonlat2int n.lat] ∧
      (DenseNodes.add_node opts DenseNodes.init StringTable.init n).1.m_lons =
        [lonlat2int n.lon]) ∧
    (DenseNodes.add_all default_options [example_node]).1.m_lats = [10000000] ∧
    (DenseNodes.add_all default_options [example_node]).1.m_lons = [20000000] := by
  refine ⟨fun c => by unfold lonlat2int lonlat_resolution location_granularity; norm_num,
    fun opts n => ?_, ?_, ?_⟩
  · constructor <;>
      simp [DenseNodes.add_node, DenseNodes.init, DeltaEncode.update]
  · simp [DenseNodes.add_all, DenseNodes.add_node, DenseNodes.init,
      DeltaEncode.update, example_node]
    norm_num [lonlat2int, round_half_away, lonlat_resolution, location_granularity]
  · simp [DenseNodes.add_all, DenseNodes.add_node, DenseNodes.init,
      DeltaEncode.update, example_node]
    norm_num [lonlat2int, round_half_away, lonlat_resolution, location_granularity]

/-! ## Parallel-array invariants of DenseNodes (C7) -/

theorem stringtable_add_head (st : StringTable) (s : String)
    (h : st.head? = some "") : ((st.add s).1).head? = some "" := by
  unfold StringTable.add
  dsimp only
  split
  · exact h
  · cases st with
    | nil => simp at h
    | cons a t => simpa using h

theorem stringtable_add_ne_zero (st : StringTable) (s : String)
    (hhead : st.head? = some "") (hs : s ≠ "") : (st.add s).2 ≠ 0 := by
  cases st with
  | nil => simp at hhead
  | cons a t =>
    have ha : a = "" := by simpa using hhead
    subst ha
    unfold StringTable.add
    dsimp only
    rw [List.indexOf_cons_ne t (Ne.symm hs)]
    split
    · simp
    · simp

theorem add_tag_pairs_head (tags : List (String × String)) :
    ∀ (st : StringTable) (acc : List Int), st.head? = some "" →
      (add_tag_pairs st tags acc).1.head? = some "" := by
  induction tags with
  | nil => intro st acc h; exact h
  | cons kv rest ih =>
    intro st acc h
    obtain ⟨k, v⟩ := kv
    unfold add_tag_pairs
    exact ih _ _ (stringtable_add_head _ _ (stringtable_add_head _ _ h))

theorem add_tag_pairs_count (tags : List (String × String)) :
    ∀ (st : StringTable) (acc : List Int), st.head? = some "" →
      (∀ kv ∈ tags, kv.1 ≠ "" ∧ kv.2 ≠ "") →
      ((add_tag_pairs st tags acc).2).count 0 = acc.count 0 := by
  induction tags with
  | nil => intro st acc _ _; rfl
  | cons kv rest ih =>
    intro st acc hhead htags
    obtain ⟨k, v⟩ := kv
    obtain ⟨hk, hv⟩ := htags (k, v) (List.mem_cons_self _ _)
    have hki : (st.add k).2 ≠ 0 := stringtable_add_ne_zero st k hhead hk
    have hh1 : ((st.add k).1).head? = some "" := stringtable_add_head st k hhead
    have hvi : (((st.add k).1).add v).2 ≠ 0 := stringtable_add_ne_zero _ v hh1 hv
    unfold add_tag_pairs
    rw [ih _ _ (stringtable_add_head _ _ hh1)
        (fun kv hkv => htags kv (List.mem_cons_of_mem _ hkv))]
    have hki' : ((st.add k).2 : Int) ≠ 0 := by exact_mod_cast hki
    have hvi' : ((((st.add k).1).add v).2 : Int) ≠ 0 := by exact_mod_cast hvi
    simp [List.count_append, List.count_cons, hki', hvi']

/-- The invariant of the DenseNodes buffer: the coordinate arrays and every
enabled metadata column are parallel to `m_ids`, `m_tags` holds one sentinel
per entry of `m_ids`, and the block's string table keeps the empty string at
index 0. -/
def dense_inv (opts : pbf_output_options) (p : DenseNodes × StringTable) : Prop :=
  p.1.m_lats.length = p.1.m_ids.length ∧
  p.1.m_lons.length = p.1.m_ids.length ∧
  (opts.add_metadata.version = true → p.1.m_versions.length = p.1.m_ids.length) ∧
  (opts.add_metadata.timestamp = true → p.1.m_timestamps.length = p.1.m_ids.length) ∧
  (opts.add_metadata.changeset = true → p.1.m_changesets.length = p.1.m_ids.length) ∧
  (opts.add_metadata.uid = true → p.1.m_uids.length = p.1.m_ids.length) ∧
  (opts.add_metadata.user = true → p.1.m_user_sids.length = p.1.m_ids.length) ∧
  (opts.add_visible_flag = true → p.1.m_visibles.length = p.1.m_ids.length) ∧
  p.1.m_tags.count 0 = p.1.m_ids.length ∧
  p.2.head? = some ""

theorem add_node_preserves_inv (opts : pbf_output_options)
    (p : DenseNodes × StringTable) (n : Node)
    (hn : ∀ kv ∈ n.tags, kv.1 ≠ "" ∧ kv.2 ≠ "")
    (h : dense_inv opts p) :
    dense_inv opts (DenseNodes.add_node opts p.1 p.2 n) ∧
    (DenseNodes.add_node opts p.1 p.2 n).1.m_ids.length = p.1.m_ids.length + 1 := by
  obtain ⟨d, st⟩ := p
  obtain ⟨h1, h2, h3, h4, h5, h6, h7, h8, h9, h10⟩ := h
  by_cases hu : opts.add_metadata.user = true
  · constructor
    · refine ⟨?_, ?_, ?_, ?_, ?_, ?_, ?_, ?_, ?_, ?_⟩ <;>
        simp only [DenseNodes.add_node, DeltaEncode.update, hu, if_true] <;>
        intros <;>
        simp_all [apply_ite List.length, add_tag_pairs_count n.tags _ d.m_tags
          (stringtable_add_head st n.user h10) hn, List.count_append,
          add_tag_pairs_head n.tags _ d.m_tags (stringtable_add_head st n.user h10)]
    · simp [DenseNodes.add_node, DeltaEncode.update]
  · constructor
    · refine ⟨?_, ?_, ?_, ?_, ?_, ?_, ?_, ?_, ?_, ?_⟩ <;>
        simp only [DenseNodes.add_node, DeltaEncode.update, hu, if_false,
          Bool.false_eq_true] <;>
        intros <;>
        simp_all [apply_ite List.length,
          add_tag_pairs_count n.tags st d.m_tags h10 hn, List.count_append,
          add_tag_pairs_head n.tags st d.m_tags h10]
    · simp [DenseNodes.add_node, DeltaEncode.update]

theorem fold_add_node_inv (opts : pbf_output_options) (nodes : List Node) :
    ∀ p : DenseNodes × StringTable,
      (∀ n ∈ nodes, ∀ kv ∈ n.tags, kv.1 ≠ "" ∧ kv.2 ≠ "") →
      dense_inv opts p →
      dense_inv opts (nodes.foldl (fun q n => DenseNodes.add_node opts q.1 q.2 n) p) ∧
      (nodes.foldl (fun q n => DenseNodes.add_node opts q.1 q.2 n) p).1.m_ids.length =
        p.1.m_ids.length + nodes.length := by
  induction nodes with
  | nil => intro p _ h; exact ⟨h, rfl⟩
  | cons n rest ih =>
    intro p hn h
    have hstep := add_node_preserves_inv opts p n
      (hn n (List.mem_cons_self _ _)) h
    have hrest := ih (DenseNodes.add_node opts p.1 p.2 n)
      (fun m hm => hn m (List.mem_cons_of_mem _ hm)) hstep.1
    refine ⟨hrest.1, ?_⟩
    simp only [List.foldl_cons, List.length_cons]
    omega


/-- C7 counterexample: a single node carrying the tag `("", "x")` puts the
string-table index `0` of the empty key into `keys_vals`, so the array holds
two `0` entries for one added node; the claim's `exactly one 0 sentinel per
added node` fails. -/
theorem dense_nodes_sentinel_counterexample :
    (DenseNodes.add_all
        ⟨metadata_options.none_set, 0, pbf_compression.zlib, true, false, false, false⟩
        [{ id := 1, version := 0, timestamp := 0, changeset := 0, uid := 0,
           user := "", visible := true, tags := [("", "x")],
           lat := 0, lon := 0 }]).1.m_tags.count 0 ≠
      [({ id := 1, version := 0, timestamp := 0, changeset := 0, uid := 0,
           user := "", visible := true, tags := [("", "x")],
           lat := 0, lon := 0 } : Node)].length := by
  simp [DenseNodes.add_all, DenseNodes.add_node, DenseNodes.init,
    DeltaEncode.update, add_tag_pairs, StringTable.add, StringTable.init,
    metadata_options.none_set, List.count_append, List.count_cons]

/-- The unconditional part of the invariant: the coordinate arrays and
every enabled metadata column stay parallel to `m_ids`, whatever the tag
strings are. -/
def dense_len_inv (opts : pbf_output_options) (p : DenseNodes × StringTable) :
    Prop :=
  p.1.m_lats.length = p.1.m_ids.length ∧
  p.1.m_lons.length = p.1.m_ids.length ∧
  (opts.add_metadata.version = true → p.1.m_versions.length = p.1.m_ids.length) ∧
  (opts.add_metadata.timestamp = true → p.1.m_timestamps.length = p.1.m_ids.length) ∧
  (opts.add_metadata.changeset = true → p.1.m_changesets.length = p.1.m_ids.length) ∧
  (opts.add_metadata.uid = true → p.1.m_uids.length = p.1.m_ids.length) ∧
  (opts.add_metadata.user = true → p.1.m_user_sids.length = p.1.m_ids.length) ∧
  (opts.add_visible_flag = true → p.1.m_visibles.length = p.1.m_ids.length)

theorem add_node_preserves_len_inv (opts : pbf_output_options)
    (p : DenseNodes × StringTable) (n : Node) (h : dense_len_inv opts p) :
    dense_len_inv opts (DenseNodes.add_node opts p.1 p.2 n) ∧
    (DenseNodes.add_node opts p.1 p.2 n).1.m_ids.length = p.1.m_ids.length + 1 := by
  obtain ⟨d, st⟩ := p
  obtain ⟨h1, h2, h3, h4, h5, h6, h7, h8⟩ := h
  by_cases hu : opts.add_metadata.user = true
  · constructor
    · refine ⟨?_, ?_, ?_, ?_, ?_, ?_, ?_, ?_⟩ <;>
        simp only [DenseNodes.add_node, DeltaEncode.update, hu, if_true] <;>
        intros <;>
        simp_all [apply_ite List.length]
    · simp [DenseNodes.add_node, DeltaEncode.update]
  · constructor
    · refine ⟨?_, ?_, ?_, ?_, ?_, ?_, ?_, ?_⟩ <;>
        simp only [DenseNodes.add_node, DeltaEncode.update, hu, if_false,
          Bool.false_eq_true] <;>
        intros <;>
        simp_all [apply_ite List.length]
    · simp [DenseNodes.add_node, DeltaEncode.update]

theorem fold_add_node_len_inv (opts : pbf_output_options) (nodes : List Node) :
    ∀ p : DenseNodes × StringTable,
      dense_len_inv opts p →
      dense_len_inv opts
        (nodes.foldl (fun q n => DenseNodes.add_node opts q.1 q.2 n) p) ∧
      (nodes.foldl (fun q n => DenseNodes.add_node opts q.1 q.2 n) p).1.m_ids.length =
        p.1.m_ids.length + nodes.length := by
  induction nodes with
  | nil => intro p h; exact ⟨h, rfl⟩
  | cons n rest ih =>
    intro p h
    have hstep := add_node_preserves_len_inv opts p n h
    have hrest := ih (DenseNodes.add_node opts p.1 p.2 n) hstep.1
    refine ⟨hrest.1, ?_⟩
    simp only [List.foldl_cons, List.length_cons]
    omega

/-- C7 (amended): after every sequence of `add_node` calls, `ids`, `lats`
and `lons` have equal length and every metadata column enabled by the
options has that same length — unconditionally; and, provided no tag key or
value is the empty string, whose string-table index is the reserved `0`,
`keys_vals` contains exactly one `0` sentinel per added node. -/
theorem dense_nodes_parallel_arrays (opts : pbf_output_options)
    (nodes : List Node) :
    (DenseNodes.add_all opts nodes).1.m_lats.length =
      (DenseNodes.add_all opts nodes).1.m_ids.length ∧
    (DenseNodes.add_all opts nodes).1.m_lons.length =
      (DenseNodes.add_all opts nodes).1.m_ids.length ∧
    (opts.add_metadata.version = true →
      (DenseNodes.add_all opts nodes).1.m_versions.length =
        (DenseNodes.add_all opts nodes).1.m_ids.length) ∧
    (opts.add_metadata.timestamp = true →
      (DenseNodes.add_all opts nodes).1.m_timestamps.length =
        (DenseNodes.add_all opts nodes).1.m_ids.length) ∧
    (opts.add_metadata.changeset = true →
      (DenseNodes.add_all opts nodes).1.m_changesets.length =
        (DenseNodes.add_all opts nodes).1.m_ids.length) ∧
    (opts.add_metadata.uid = true →
      (DenseNodes.add_all opts nodes).1.m_uids.length =
        (DenseNodes.add_all opts nodes).1.m_ids.length) ∧
    (opts.add_metadata.user = true →
      (DenseNodes.add_all opts nodes).1.m_user_sids.length =
        (DenseNodes.add_all opts nodes).1.m_ids.length) ∧
    (opts.add_visible_flag = true →
      (DenseNodes.add_all opts nodes).1.m_visibles.length =
        (DenseNodes.add_all opts nodes).1.m_ids.length) ∧
    (DenseNodes.add_all opts nodes).1.m_ids.length = nodes.length ∧
    ((∀ n ∈ nodes, ∀ kv ∈ n.tags, kv.1 ≠ "" ∧ kv.2 ≠ "") →
      (DenseNodes.add_all opts nodes).1.m_tags.count 0 = nodes.length) := by
  have hinitlen : dense_len_inv opts (DenseNodes.init, StringTable.init) := by
    refine ⟨rfl, rfl, ?_, ?_, ?_, ?_, ?_, ?_⟩ <;> intro <;> rfl
  have hlenfold := fold_add_node_len_inv opts nodes
    (DenseNodes.init, StringTable.init) hinitlen
  obtain ⟨⟨i1, i2, i3, i4, i5, i6, i7, i8⟩, hlen⟩ := hlenfold
  have hlen' : (DenseNodes.add_all opts nodes).1.m_ids.length = nodes.length := by
    simpa [DenseNodes.add_all, DenseNodes.init] using hlen
  refine ⟨i1, i2, i3, i4, i5, i6, i7, i8, hlen', ?_⟩
  intro hn
  have hinit : dense_inv opts (DenseNodes.init, StringTable.init) := by
    refine ⟨rfl, rfl, ?_, ?_, ?_, ?_, ?_, ?_, rfl, rfl⟩ <;> intro <;> rfl
  have hfold := fold_add_node_inv opts nodes
    (DenseNodes.init, StringTable.init) hn hinit
  obtain ⟨⟨_, _, _, _, _, _, _, _, i9, _⟩, _⟩ := hfold
  rw [show (DenseNodes.add_all opts nodes).1.m_tags.count 0 =
      (DenseNodes.add_all opts nodes).1.m_ids.length from i9, hlen']

/-- Witness for C7 at a concrete input: two nodes with non-empty tags. -/
theorem dense_nodes_parallel_arrays_witness :
    (DenseNodes.add_all default_options
        [{ id := 1, version := 2, timestamp := 3, changeset := 4, uid := 5,
           user := "u", visible := true, tags := [("highway", "residential")],
           lat := 0, lon := 0 },
         { id := 2, version := 1, timestamp := 6, changeset := 7, uid := 8,
           user := "v", visible := true, tags := [], lat := 0, lon := 0 }]).1.m_tags.count 0 = 2 :=
  (dense_nodes_parallel_arrays default_options _).2.2.2.2.2.2.2.2.2
    (by
      intro n hn kv hkv
      rcases List.mem_cons.mp hn with h | h
      · subst h
        rcases List.mem_cons.mp hkv with h2 | h2
        · subst h2
          exact ⟨by decide, by decide⟩
        · simp at h2
      · rcases List.mem_cons.mp h with h3 | h3
        · subst h3
          simp at hkv
        · simp at h3)

/-! ## Object metadata (add_meta) and the Info sub-message -/

/-- A packed field written through the protozero `packed_field_*` scoped
classes: unlike the iterator-range form, the field is written even when no
element is added (key plus zero length).  Variant for `uint32` elements. -/
def packed_uint32_scoped (field : Nat) (values : List Nat) : List Nat :=
  len_field field (values.flatMap fun v => varint v)

/-- Scoped packed `sint64` field (written even when empty). -/
def packed_sint64_scoped (field : Nat) (values : List Int) : List Nat :=
  len_field field (values.flatMap fun v => varint (zigzag64 v))

/-- Scoped packed `int32` field (written even when empty). -/
def packed_int32_scoped (field : Nat) (values : List Int) : List Nat :=
  len_field field (values.flatMap fun v => varint (uint64_cast v))

/-- A `bool` protobuf field. -/
def bool_field (field : Nat) (b : Bool) : List Nat :=
  varint_field field (if b then 1 else 0)

/-- Modelled from the spec: the tag-keys field number shared by the `Node`,
`Way` and `Relation` messages of the OSMPBF format (keys = 2). -/
def T_packed_uint32_keys : Nat := 2

/-- Modelled from the spec: the tag-values field number (vals = 3). -/
def T_packed_uint32_vals : Nat := 3

/-- Modelled from the spec: the `Info` sub-message field number (4). -/
def T_optional_Info_info : Nat := 4

/-- Modelled from the spec: `Info.version` field number. -/
def Info_optional_int32_version : Nat := 1

/-- Modelled from the spec: `Info.timestamp` field number. -/
def Info_optional_int64_timestamp : Nat := 2

/-- Modelled from the spec: `Info.changeset` field number. -/
def Info_optional_int64_changeset : Nat := 3

/-- Modelled from the spec: `Info.uid` field number. -/
def Info_optional_int32_uid : Nat := 4

/-- Modelled from the spec: `Info.user_sid` field number. -/
def Info_optional_uint32_user_sid : Nat := 5

/-- Modelled from the spec: `Info.visible` field number. -/
def Info_optional_bool_visible : Nat := 6

/-- The first loop of `add_meta`: store every tag key in the string table
and collect the indices. -/
def store_tag_keys (st : StringTable) :
    List (String × String) → StringTable × List Nat
  | [] => (st, [])
  | (k, _) :: rest =>
      let (st1, i) := st.add k
      let (st2, is) := store_tag_keys st1 rest
      (st2, i :: is)

/-- The second loop of `add_meta`: store every tag value in the string
table and collect the indices. -/
def store_tag_vals (st : StringTable) :
    List (String × String) → StringTable × List Nat
  | [] => (st, [])
  | (_, v) :: rest =>
      let (st1, i) := st.add v
      let (st2, is) := store_tag_vals st1 rest
      (st2, i :: is)

/-- The `Info` sub-message body written by `add_meta` (pbf_output_format.hpp
lines 495-518): version as `int32`, the `uint32`-cast timestamp as `int64`,
changeset as `int64`, uid as `int32`, the user's string-table index as
`uint32`, the visible flag as `bool` — each present only when its flag is
enabled. -/
def info_body (opts : pbf_output_options) (st : StringTable) (obj : OSMObject) :
    List Nat × StringTable :=
  let ver := if opts.add_metadata.version then
      int32_field Info_optional_int32_version (int32_cast obj.version) else []
  let tsf := if opts.add_metadata.timestamp then
      int64_field Info_optional_int64_timestamp (uint32_cast obj.timestamp) else []
  let cs := if opts.add_metadata.changeset then
      int64_field Info_optional_int64_changeset obj.changeset else []
  let uidf := if opts.add_metadata.uid then
      int32_field Info_optional_int32_uid (int32_cast obj.uid) else []
  let usr := if opts.add_metadata.user then
      varint_field Info_optional_uint32_user_sid (st.add obj.user).2 else []
  let st1 := if opts.add_metadata.user then (st.add obj.user).1 else st
  let vis := if opts.add_visible_flag then
      bool_field Info_optional_bool_visible obj.visible else []
  (ver ++ tsf ++ cs ++ uidf ++ usr ++ vis, st1)

/-- `add_meta` from pbf_output_format.hpp: the packed tag-key indices, the
packed tag-value indices (both through scoped packed fields), then the
`Info` sub-message when any metadata flag or the visible flag is set. -/
def add_meta (opts : pbf_output_options) (st : StringTable) (obj : OSMObject) :
    List Nat × StringTable :=
  let (st1, keys) := store_tag_keys st obj.tags
  let (st2, vals) := store_tag_vals st1 obj.tags
  let (info, st3) :=
    if opts.add_metadata.any || opts.add_visible_flag then
      let (body, st3) := info_body opts st2 obj
      (len_field T_optional_Info_info body, st3)
    else ([], st2)
  (packed_uint32_scoped T_packed_uint32_keys keys ++
   packed_uint32_scoped T_packed_uint32_vals vals ++ info, st3)

/-- Modelled from the spec: `HeaderBlock.osmosis_replication_timestamp`
field number (32 in the OSMPBF format). -/
def HeaderBlock_optional_int64_osmosis_replication_timestamp : Nat := 32

/-- The replication-timestamp field written by `write_header`
(pbf_output_format.hpp lines 615-619): when the input header carries a
replication timestamp (modelled as already parsed to seconds, as the spec
describes), its value is cast to `uint32_t` and written as an `int64`
field. -/
def write_header_replication_timestamp (ts : Option Int) : List Nat :=
  match ts with
  | Option.none => []
  | Option.some t =>
      int64_field HeaderBlock_optional_int64_osmosis_replication_timestamp
        (uint32_cast t)

theorem uint32_cast_toInt (t : Int) : (uint32_cast t : Int) = t % 2 ^ 32 := by
  unfold uint32_cast
  rw [Int.toNat_of_nonneg (Int.emod_nonneg t (by norm_num))]

/-- C9: for every object whose timestamp does not fit in 32 unsigned bits,
the encoder stores the timestamp reduced modulo `2 ^ 32`: the value fed to
the DenseInfo delta encoder, the `int64` value of the `Info` timestamp
field, and the header's replication timestamp are all `t % 2 ^ 32`, which
differs from `t`. -/
theorem timestamp_uint32_truncation (t : Int) (h : 2 ^ 32 ≤ t) :
    t % 2 ^ 32 ≠ t ∧
    (∀ (opts : pbf_output_options) (d : DenseNodes) (st : StringTable) (n : Node),
      n.timestamp = t → opts.add_metadata.timestamp = true →
      (DenseNodes.add_node opts d st n).1.m_timestamps =
        d.m_timestamps ++ [t % 2 ^ 32 - d.m_delta_timestamp]) ∧
    (∀ (opts : pbf_output_options) (st : StringTable) (obj : OSMObject),
      obj.timestamp = t → opts.add_metadata.timestamp = true →
      ∃ pre post : List Nat,
        (info_body opts st obj).1 =
          pre ++ int64_field Info_optional_int64_timestamp (t % 2 ^ 32) ++ post) ∧
    write_header_replication_timestamp (Option.some t) =
      int64_field HeaderBlock_optional_int64_osmosis_replication_timestamp
        (t % 2 ^ 32) := by
  refine ⟨?_, ?_, ?_, ?_⟩
  · have h1 : t % 2 ^ 32 < 2 ^ 32 := Int.emod_lt_of_pos t (by norm_num)
    omega
  · intro opts d st n hn hflag
    simp [DenseNodes.add_node, DeltaEncode.update, hflag, uint32_cast_toInt, hn]
  · intro opts st obj hobj hflag
    refine ⟨if opts.add_metadata.version then
        int32_field Info_optional_int32_version (int32_cast obj.version) else [],
      (if opts.add_metadata.changeset then
        int64_field Info_optional_int64_changeset obj.changeset else []) ++
      (if opts.add_metadata.uid then
        int32_field Info_optional_int32_uid (int32_cast obj.uid) else []) ++
      (if opts.add_metadata.user then
        varint_field Info_optional_uint32_user_sid (st.add obj.user).2 else []) ++
      (if opts.add_visible_flag then
        bool_field Info_optional_bool_visible obj.visible else []), ?_⟩
    have hcast : int64_field Info_optional_int64_timestamp (uint32_cast obj.timestamp) =
        int64_field Info_optional_int64_timestamp (t % 2 ^ 32) := by
      rw [uint32_cast_toInt, hobj]
    simp [info_body, hflag, hcast, List.append_assoc]
  · simp [write_header_replication_timestamp, uint32_cast_toInt]

/-- Metadata options enabling only the timestamp. -/
def opts_timestamp_only : pbf_output_options :=
  ⟨⟨false, true, false, false, false⟩, 0, pbf_compression.zlib, true, false, false, false⟩

/-- A node with a timestamp that does not fit in 32 unsigned bits. -/
def node_big_timestamp : Node :=
  { id := 1, version := 0, timestamp := 2 ^ 32 + 7, changeset := 0, uid := 0,
    user := "", visible := true, tags := [], lat := 0, lon := 0 }

/-- Witness for C9 at the concrete timestamp `2 ^ 32 + 7`. -/
theorem timestamp_uint32_truncation_witness :
    ((2 ^ 32 + 7 : Int) % 2 ^ 32 ≠ 2 ^ 32 + 7) ∧
    (DenseNodes.add_node opts_timestamp_only DenseNodes.init StringTable.init
        node_big_timestamp).1.m_timestamps =
      DenseNodes.init.m_timestamps ++
        [(2 ^ 32 + 7 : Int) % 2 ^ 32 - DenseNodes.init.m_delta_timestamp] ∧
    (∃ pre post : List Nat,
      (info_body opts_timestamp_only StringTable.init
          node_big_timestamp.toOSMObject).1 =
        pre ++ int64_field Info_optional_int64_timestamp
          ((2 ^ 32 + 7 : Int) % 2 ^ 32) ++ post) ∧
    write_header_replication_timestamp (Option.some (2 ^ 32 + 7)) =
      int64_field HeaderBlock_optional_int64_osmosis_replication_timestamp
        ((2 ^ 32 + 7 : Int) % 2 ^ 32) := by
  have h := timestamp_uint32_truncation (2 ^ 32 + 7) (by norm_num)
  exact ⟨h.1, h.2.1 opts_timestamp_only DenseNodes.init StringTable.init
      node_big_timestamp rfl rfl,
    h.2.2.1 opts_timestamp_only StringTable.init
      node_big_timestamp.toOSMObject rfl rfl, h.2.2.2⟩

/-! ## PrimitiveBlock (C1) -/

/-- The primitive-group kind.  In the source the values of the
`OSMFormat::PrimitiveGroup` field-number enum double as the block type tag
(`unknown`, `nodes = 1`, `dense = 2`, `ways = 3`, `relations = 4`); here it
is a plain enumeration. -/
inductive PrimitiveGroupType where
  | unknown
  | nodes
  | dense
  | ways
  | relations
deriving DecidableEq, Repr

/-- Modelled from the spec: `PrimitiveGroup.nodes` field number. -/
def PGroup_repeated_Node_nodes : Nat := 1

/-- Modelled from the spec: `PrimitiveGroup.dense` field number. -/
def PGroup_optional_DenseNodes_dense : Nat := 2

/-- Modelled from the spec: `PrimitiveGroup.ways` field number. -/
def PGroup_repeated_Way_ways : Nat := 3

/-- Modelled from the spec: `PrimitiveGroup.relations` field number. -/
def PGroup_repeated_Relation_relations : Nat := 4

/-- The state of class `PrimitiveBlock` (pbf_output_format.hpp): the
accumulated serialized group entries, the block's string table, the lazily
allocated `DenseNodes` buffer, the group type and the entity count. -/
structure PrimitiveBlock where
  m_pbf_primitive_group_data : List Nat
  m_stringtable : StringTable
  m_dense_nodes : Option DenseNodes
  m_type : PrimitiveGroupType
  m_count : Nat
deriving Repr

/-- A freshly constructed `PrimitiveBlock`: type `unknown`, zero count,
empty group data, string table holding only the reserved empty entry. -/
def PrimitiveBlock.init : PrimitiveBlock :=
  ⟨[], StringTable.init, Option.none, PrimitiveGroupType.unknown, 0⟩

/-- `PrimitiveBlock::reset`: clear the group data, the string table and the
dense buffer, set the new type, zero the count. -/
def PrimitiveBlock.reset (_pb : PrimitiveBlock) (t : PrimitiveGroupType) :
    PrimitiveBlock :=
  ⟨[], StringTable.init, Option.none, t, 0⟩

/-- `PrimitiveBlock::size()`: accumulated group bytes plus string-table
bytes plus the dense buffer's estimate when present. -/
def PrimitiveBlock.size (pb : PrimitiveBlock) : Nat :=
  pb.m_pbf_primitive_group_data.length + pb.m_stringtable.byte_size +
    (match pb.m_dense_nodes with
     | Option.some d => d.size
     | Option.none => 0)

/-- `max_used_blob_size` from pbf_output_format.hpp: the block is filled to
about 95% of `max_uncompressed_blob_size`; the arithmetic is unsigned
integer arithmetic, so the quotient is truncated. -/
def max_used_blob_size : Nat := max_uncompressed_blob_size * 95 / 100

/-- `PrimitiveBlock::can_add` from pbf_output_format.hpp. -/
def PrimitiveBlock.can_add (pb : PrimitiveBlock) (t : PrimitiveGroupType) : Bool :=
  if t ≠ pb.m_type then false
  else if pb.m_count ≥ max_entities_per_block then false
  else decide (pb.size < max_used_blob_size)

/-- The claim's reading of `can_add`, following the spec's words: the block
is rejected when its size estimate is at least the real number
`0.95 × MAX_UNCOMPRESSED_BLOB_SIZE`. -/
def spec_can_add (pb : PrimitiveBlock) (t : PrimitiveGroupType) : Bool :=
  if t ≠ pb.m_type then false
  else if pb.m_count ≥ max_entities_per_block then false
  else decide ((pb.size : ℚ) < 95 / 100 * max_uncompressed_blob_size)

theorem can_add_iff (pb : PrimitiveBlock) (t : PrimitiveGroupType) :
    PrimitiveBlock.can_add pb t = true ↔
      t = pb.m_type ∧ pb.m_count < max_entities_per_block ∧
        pb.size < max_used_blob_size := by
  unfold PrimitiveBlock.can_add
  split_ifs with h1 h2
  · simp [h1]
  · simp only [Bool.false_eq_true, false_iff]
    intro h
    omega
  · simp only [decide_eq_true_eq]
    constructor
    · intro h
      exact ⟨by simpa using h1, by omega, h⟩
    · exact fun h => h.2.2

theorem spec_can_add_iff (pb : PrimitiveBlock) (t : PrimitiveGroupType) :
    spec_can_add pb t = true ↔
      t = pb.m_type ∧ pb.m_count < max_entities_per_block ∧
        ((pb.size : ℚ) < 95 / 100 * max_uncompressed_blob_size) := by
  unfold spec_can_add
  split_ifs with h1 h2
  · simp [h1]
  · simp only [Bool.false_eq_true, false_iff]
    intro h
    omega
  · simp only [decide_eq_true_eq]
    constructor
    · intro h
      exact ⟨by simpa using h1, by omega, h⟩
    · exact fun h => h.2.2

/-- A block whose size estimate is exactly `15938355 = ⌊0.95 × 16 MiB⌋`
bytes of accumulated group data. -/
def boundary_block : PrimitiveBlock :=
  ⟨List.replicate 15938355 0, StringTable.init, Option.none,
   PrimitiveGroupType.ways, 0⟩

/-- C1 counterexample: at a block size estimate of exactly 15938355 bytes —
which is strictly below the claim's real threshold
`0.95 × 16 MiB = 15938355.2` — the code's `can_add` already returns false,
because the source computes the threshold in truncating unsigned integer
arithmetic (`16 MiB * 95 / 100 = 15938355`). -/
theorem can_add_boundary_counterexample :
    PrimitiveBlock.can_add boundary_block PrimitiveGroupType.ways = false ∧
    spec_can_add boundary_block PrimitiveGroupType.ways = true ∧
    boundary_block.size = 15938355 ∧
    ((boundary_block.size : ℚ) < 95 / 100 * max_uncompressed_blob_size) := by
  have hdata : boundary_block.m_pbf_primitive_group_data =
      List.replicate 15938355 0 := rfl
  have hst : boundary_block.m_stringtable = StringTable.init := rfl
  have hdn : boundary_block.m_dense_nodes = Option.none := rfl
  have hty : boundary_block.m_type = PrimitiveGroupType.ways := rfl
  have hcnt : boundary_block.m_count = 0 := rfl
  have hsize : boundary_block.size = 15938355 := by
    rw [PrimitiveBlock.size.eq_def, hdata, hst, hdn, List.length_replicate]
    norm_num [StringTable.byte_size, StringTable.init]
  have hq : ((boundary_block.size : ℚ) < 95 / 100 * max_uncompressed_blob_size) := by
    rw [hsize]
    norm_num [max_uncompressed_blob_size]
  refine ⟨?_, ?_, hsize, hq⟩
  · refine Bool.eq_false_iff.2 fun habs => ?_
    have h := ((can_add_iff boundary_block PrimitiveGroupType.ways).1 habs).2.2
    rw [hsize] at h
    norm_num [max_used_blob_size, max_uncompressed_blob_size] at h
  · exact (spec_can_add_iff boundary_block PrimitiveGroupType.ways).2
      ⟨hty.symm, by rw [hcnt]; norm_num [max_entities_per_block], hq⟩

/-- C1 (amended): `can_add(kind)` returns true exactly when the kind
matches the block type, the count is below `MAX_ENTITIES_PER_BLOCK = 8000`,
and the size estimate is below
`max_used_blob_size = 16 MiB * 95 / 100 = 15938355` (integer-truncated, not
the real `0.95 × 16 MiB`). -/
theorem can_add_characterization (pb : PrimitiveBlock) (t : PrimitiveGroupType) :
    (PrimitiveBlock.can_add pb t = true ↔
      t = pb.m_type ∧ pb.m_count < max_entities_per_block ∧
        pb.size < max_used_blob_size) ∧
    max_used_blob_size = 15938355 := by
  constructor
  · unfold PrimitiveBlock.can_add
    split_ifs with h1 h2
    · simp [h1]
    · simp only [Bool.false_eq_true, false_iff]
      intro h
      omega
    · simp only [decide_eq_true_eq]
      constructor
      · intro h
        exact ⟨by simpa using h1, by omega, h⟩
      · exact fun h => h.2.2
  · norm_num [max_used_blob_size, max_uncompressed_blob_size]

/-! ## Way encoding (C8) -/

/-- Modelled from the spec: `Way.id` field number. -/
def Way_required_int64_id : Nat := 1

/-- Modelled from the spec: `Way.refs` field number (8). -/
def Way_packed_sint64_refs : Nat := 8

/-- Modelled from the spec: the locations-on-ways `Way.lat` field number. -/
def Way_packed_sint64_lat : Nat := 9

/-- Modelled from the spec: the locations-on-ways `Way.lon` field number. -/
def Way_packed_sint64_lon : Nat := 10

/-- Delta encoding of a whole list by a freshly constructed zero-state
encoder, as the way, relation and locations-on-ways loops do. -/
def delta_encode_list (prev : Int) : List Int → List Int
  | [] => []
  | x :: rest => (x - prev) :: delta_encode_list x rest

/-- The `Way` message body built by `PBFOutputFormat::way`
(pbf_output_format.hpp lines 664-695): `int64` id, the tag/metadata fields
of `add_meta`, the packed delta-encoded sint64 refs written with a fresh
delta encoder, and — when `locations_on_ways` is set — the packed
delta-encoded lon and lat arrays, each with its own fresh delta encoder. -/
def pbf_way_body (opts : pbf_output_options) (st : StringTable) (way : Way) :
    List Nat × StringTable :=
  let (meta, st1) := add_meta opts st way.toOSMObject
  (int64_field Way_required_int64_id way.id ++ meta ++
   packed_sint64_scoped Way_packed_sint64_refs
     (delta_encode_list 0 (way.nodes.map NodeRef.ref)) ++
   (if opts.locations_on_ways then
     packed_sint64_scoped Way_packed_sint64_lon
       (delta_encode_list 0 (way.nodes.map fun nr => lonlat2int nr.lon)) ++
     packed_sint64_scoped Way_packed_sint64_lat
       (delta_encode_list 0 (way.nodes.map fun nr => lonlat2int nr.lat))
    else []), st1)

/-- Options with `add_metadata=none` and `locations_on_ways=false`, as in
the spec's fourth end-to-end scenario. -/
def opts_no_metadata : pbf_output_options :=
  ⟨metadata_options.none_set, 0, pbf_compression.zlib, true, false, false, false⟩

/-- The way of the spec's fourth end-to-end scenario: id 10,
refs `[100, 101, 103]`, one tag `(highway, residential)`. -/
def example_way : Way :=
  { id := 10, version := 0, timestamp := 0, changeset := 0, uid := 0,
    user := "", visible := true, tags := [("highway", "residential")],
    nodes := [⟨100, 0, 0⟩, ⟨101, 0, 0⟩, ⟨103, 0, 0⟩] }

/-- C8: the way encoder emits the node references as a packed sint64 refs
field, delta-encoded by a fresh encoder whose state starts at zero, so the
first emitted element is the absolute first ref; and the concrete way
`{id=10, refs=[100,101,103], tag=(highway,residential)}` under
`add_metadata=none`, `locations_on_ways=false` produces refs `[100, 1, 2]`
with `keys=[1]`, `vals=[2]` against the string table
`["", "highway", "residential"]`. -/
theorem way_refs_delta_encoding :
    (∀ (opts : pbf_output_options) (st : StringTable) (w : Way),
      (pbf_way_body opts st w).1 =
        int64_field Way_required_int64_id w.id ++
        (add_meta opts st w.toOSMObject).1 ++
        packed_sint64_scoped Way_packed_sint64_refs
          (delta_encode_list 0 (w.nodes.map NodeRef.ref)) ++
        (if opts.locations_on_ways then
          packed_sint64_scoped Way_packed_sint64_lon
            (delta_encode_list 0 (w.nodes.map fun nr => lonlat2int nr.lon)) ++
          packed_sint64_scoped Way_packed_sint64_lat
            (delta_encode_list 0 (w.nodes.map fun nr => lonlat2int nr.lat))
         else [])) ∧
    (∀ (r : Int) (rest : List Int),
      delta_encode_list 0 (r :: rest) = r :: delta_encode_list r rest) ∧
    delta_encode_list 0 [100, 101, 103] = [100, 1, 2] ∧
    pbf_way_body opts_no_metadata StringTable.init example_way =
      (int64_field Way_required_int64_id 10 ++
       packed_uint32_scoped T_packed_uint32_keys [1] ++
       packed_uint32_scoped T_packed_uint32_vals [2] ++
       packed_sint64_scoped Way_packed_sint64_refs [100, 1, 2],
       ["", "highway", "residential"]) := by
  refine ⟨?_, ?_, ?_, ?_⟩
  · intro opts st w
    simp [pbf_way_body]
  · intro r rest
    simp [delta_encode_list]
  · norm_num [delta_encode_list]
  · have hkeys : store_tag_keys StringTable.init [("highway", "residential")] =
        (["", "highway"], [1]) := by decide
    have hvals : store_tag_vals ["", "highway"] [("highway", "residential")] =
        (["", "highway", "residential"], [2]) := by decide
    have hany : metadata_options.any metadata_options.none_set = false := rfl
    have hrefs : delta_encode_list 0 [(100 : Int), 101, 103] = [100, 1, 2] := by
      norm_num [delta_encode_list]
    simp [pbf_way_body, add_meta, hkeys, hvals, hany, hrefs, opts_no_metadata,
      example_way]

/-! ## The output orchestrator (PBFOutputFormat) -/

/-- `PrimitiveBlock::add_dense_node`: lazily allocate the dense buffer, add
the node (threading the block's string table through it), bump the count. -/
def PrimitiveBlock.add_dense_node (opts : pbf_output_options)
    (pb : PrimitiveBlock) (n : Node) : PrimitiveBlock :=
  let d := match pb.m_dense_nodes with
    | Option.some d => d
    | Option.none => DenseNodes.init
  let (d1, st1) := DenseNodes.add_node opts d pb.m_stringtable n
  { pb with m_dense_nodes := Option.some d1, m_stringtable := st1,
            m_count := pb.m_count + 1 }

/-- The content of one data blob at flush time: the block's string table,
group type, accumulated group entries and dense buffer.  In the source,
`store_primitive_block` serializes exactly this content into a
`PrimitiveBlock` message and submits it as a `SerializeBlob` job; the
serialized bytes are a pure function of this snapshot. -/
structure BlockSnapshot where
  stringtable : StringTable
  group_type : PrimitiveGroupType
  group_data : List Nat
  dense : Option DenseNodes
deriving Repr

/-- The encoder state of class `PBFOutputFormat`: the options, the working
block, and the ordered queue of flushed data blobs. -/
structure PBFOutputFormat where
  m_options : pbf_output_options
  m_primitive_block : PrimitiveBlock
  m_output_queue : List BlockSnapshot
deriving Repr

/-- A freshly constructed encoder with the given (already parsed) options. -/
def PBFOutputFormat.init (opts : pbf_output_options) : PBFOutputFormat :=
  ⟨opts, PrimitiveBlock.init, []⟩

/-- `store_primitive_block`: skip when the working block is empty, else
push the block content onto the output queue (futures are pushed in job
submission order, so the queue order is the flush order). -/
def PBFOutputFormat.store_primitive_block (s : PBFOutputFormat) :
    PBFOutputFormat :=
  if s.m_primitive_block.m_count = 0 then s
  else { s with m_output_queue := s.m_output_queue ++
    [⟨s.m_primitive_block.m_stringtable, s.m_primitive_block.m_type,
      s.m_primitive_block.m_pbf_primitive_group_data,
      s.m_primitive_block.m_dense_nodes⟩] }

/-- `switch_primitive_block_type`: when the working block cannot take the
kind, flush it and reset it to the new kind. -/
def PBFOutputFormat.switch_primitive_block_type (s : PBFOutputFormat)
    (t : PrimitiveGroupType) : PBFOutputFormat :=
  if s.m_primitive_block.can_add t then s
  else
    let s1 := s.store_primitive_block
    { s1 with m_primitive_block := s1.m_primitive_block.reset t }

/-- Modelled from the spec: `Node.id` field number (sint64, 1). -/
def Node_required_sint64_id : Nat := 1

/-- Modelled from the spec: `Node.lat` field number (sint64, 8). -/
def Node_required_sint64_lat : Nat := 8

/-- Modelled from the spec: `Node.lon` field number (sint64, 9). -/
def Node_required_sint64_lon : Nat := 9

/-- `PBFOutputFormat::node`: in dense mode switch the block to the dense
kind and add to the dense buffer; otherwise switch to the plain nodes kind
and append a `Node` message (sint64 id, meta, sint64 lat, sint64 lon) to
the group. -/
def PBFOutputFormat.node (s : PBFOutputFormat) (n : Node) : PBFOutputFormat :=
  if s.m_options.use_dense_nodes then
    let s1 := s.switch_primitive_block_type PrimitiveGroupType.dense
    { s1 with m_primitive_block :=
        PrimitiveBlock.add_dense_node s1.m_options s1.m_primitive_block n }
  else
    let s1 := s.switch_primitive_block_type PrimitiveGroupType.nodes
    let (meta, st1) :=
      add_meta s1.m_options s1.m_primitive_block.m_stringtable n.toOSMObject
    let body :=
      sint64_field Node_required_sint64_id n.id ++ meta ++
      sint64_field Node_required_sint64_lat (lonlat2int n.lat) ++
      sint64_field Node_required_sint64_lon (lonlat2int n.lon)
    { s1 with m_primitive_block :=
        { s1.m_primitive_block with
            m_stringtable := st1
            m_pbf_primitive_group_data :=
              s1.m_primitive_block.m_pbf_primitive_group_data ++
                len_field PGroup_repeated_Node_nodes body
            m_count := s1.m_primitive_block.m_count + 1 } }

/-- `PBFOutputFormat::way`: switch the block to the ways kind and append a
`Way` message to the group. -/
def PBFOutputFormat.way (s : PBFOutputFormat) (w : Way) : PBFOutputFormat :=
  let s1 := s.switch_primitive_block_type PrimitiveGroupType.ways
  let (body, st1) :=
    pbf_way_body s1.m_options s1.m_primitive_block.m_stringtable w
  { s1 with m_primitive_block :=
      { s1.m_primitive_block with
          m_stringtable := st1
          m_pbf_primitive_group_data :=
            s1.m_primitive_block.m_pbf_primitive_group_data ++
              len_field PGroup_repeated_Way_ways body
          m_count := s1.m_primitive_block.m_count + 1 } }

/-- `write_end`: flush the working block. -/
def PBFOutputFormat.write_end (s : PBFOutputFormat) : PBFOutputFormat :=
  s.store_primitive_block

/-- Feed a stream of nodes to the encoder. -/
def PBFOutputFormat.run_nodes (s : PBFOutputFormat) (nodes : List Node) :
    PBFOutputFormat :=
  nodes.foldl PBFOutputFormat.node s

/-! ## The 8000/8001-node block boundary (C5) -/

/-- The node with sequential id `i` and a fixed location, as in the spec's
boundary scenario. -/
def seq_node (i : Nat) : Node :=
  { id := (i : Int), version := 0, timestamp := 0, changeset := 0, uid := 0,
    user := "", visible := true, tags := [], lat := 1, lon := 2 }

/-- The stream of `k` nodes with sequential ids `1 .. k`. -/
def seq_nodes (k : Nat) : List Node :=
  (List.range k).map fun i => seq_node (i + 1)

/-- The dense buffer after `k ≥ 1` sequential same-location nodes: the
first id delta is the absolute id 1, all later deltas are 1; the first
coordinate delta is the absolute fixed-point coordinate, all later deltas
are 0; one tag sentinel per node. -/
def seq_dense (k : Nat) : DenseNodes :=
  { m_ids := 1 :: List.replicate (k - 1) 1
    m_versions := []
    m_timestamps := []
    m_changesets := []
    m_uids := []
    m_user_sids := []
    m_visibles := []
    m_lats := lonlat2int 1 :: List.replicate (k - 1) 0
    m_lons := lonlat2int 2 :: List.replicate (k - 1) 0
    m_tags := List.replicate k 0
    m_delta_id := (k : Int)
    m_delta_timestamp := 0
    m_delta_changeset := 0
    m_delta_uid := 0
    m_delta_user_sid := 0
    m_delta_lat := lonlat2int 1
    m_delta_lon := lonlat2int 2 }

/-- The encoder state after `k ≥ 1` sequential nodes and no flush. -/
def seq_state (k : Nat) : PBFOutputFormat :=
  ⟨opts_no_metadata,
   ⟨[], StringTable.init, Option.some (seq_dense k), PrimitiveGroupType.dense, k⟩,
   []⟩

theorem seq_nodes_succ (k : Nat) :
    seq_nodes (k + 1) = seq_nodes k ++ [seq_node (k + 1)] := by
  simp [seq_nodes, List.range_succ]

theorem seq_state_can_add (k : Nat) (h1 : 1 ≤ k) (h2 : k < 8000) :
    (seq_state k).m_primitive_block.can_add PrimitiveGroupType.dense = true := by
  refine (can_add_iff _ _).2 ⟨rfl, ?_, ?_⟩
  · show k < max_entities_per_block
    rw [max_entities_per_block]
    omega
  · have hsz : (seq_state k).m_primitive_block.size = k * 24 := by
      show (0 : Nat) + StringTable.byte_size StringTable.init +
        (seq_dense k).m_ids.length * 3 * 8 = k * 24
      have hlen : (seq_dense k).m_ids.length = k := by
        show (1 :: List.replicate (k - 1) (1 : Int)).length = k
        rw [List.length_cons, List.length_replicate]
        omega
      rw [hlen]
      simp [StringTable.byte_size, StringTable.init]
      ring
    rw [hsz, max_used_blob_size, max_uncompressed_blob_size]
    omega

theorem add_node_seq (k : Nat) (h1 : 1 ≤ k) :
    DenseNodes.add_node opts_no_metadata (seq_dense k) StringTable.init
      (seq_node (k + 1)) = (seq_dense (k + 1), StringTable.init) := by
  have hids : ((1 : Int) :: List.replicate (k - 1) 1) ++ [1] =
      1 :: List.replicate ((k + 1) - 1) 1 := by
    rw [List.cons_append, ← List.replicate_succ']
    congr 2
    omega
  have hlats : ∀ c : Int, (c :: List.replicate (k - 1) 0) ++ [0] =
      c :: List.replicate ((k + 1) - 1) 0 := by
    intro c
    rw [List.cons_append, ← List.replicate_succ']
    congr 2
    omega
  have htags : List.replicate k (0 : Int) ++ [0] =
      List.replicate (k + 1) 0 := (List.replicate_succ' k 0).symm
  simp only [DenseNodes.add_node, DeltaEncode.update, opts_no_metadata,
    metadata_options.none_set, seq_node, add_tag_pairs, Bool.false_eq_true,
    if_false, seq_dense, sub_self]
  rw [Prod.mk.injEq, DenseNodes.mk.injEq]
  refine ⟨⟨?_, rfl, rfl, rfl, rfl, rfl, rfl, ?_, ?_, htags, ?_, rfl, rfl, rfl,
    rfl, rfl, rfl⟩, rfl⟩
  · rw [← hids]
    congr 2
    push_cast
    ring
  · exact hlats (lonlat2int 1)
  · exact hlats (lonlat2int 2)
  · push_cast
    ring

theorem add_dense_node_seq (k : Nat) (h1 : 1 ≤ k) :
    PrimitiveBlock.add_dense_node opts_no_metadata
      ⟨[], StringTable.init, Option.some (seq_dense k), PrimitiveGroupType.dense, k⟩
      (seq_node (k + 1)) =
    ⟨[], StringTable.init, Option.some (seq_dense (k + 1)),
      PrimitiveGroupType.dense, k + 1⟩ := by
  simp only [PrimitiveBlock.add_dense_node, add_node_seq k h1]

theorem seq_step (k : Nat) (h1 : 1 ≤ k) (h2 : k < 8000) :
    PBFOutputFormat.node (seq_state k) (seq_node (k + 1)) = seq_state (k + 1) := by
  have hcan := seq_state_can_add k h1 h2
  have hswitch : PBFOutputFormat.switch_primitive_block_type (seq_state k)
      PrimitiveGroupType.dense = seq_state k := by
    unfold PBFOutputFormat.switch_primitive_block_type
    rw [hcan]
    simp
  simp only [PBFOutputFormat.node,
    show (seq_state k).m_options.use_dense_nodes = true from rfl, if_true,
    hswitch]
  rw [show (seq_state k).m_options = opts_no_metadata from rfl,
    show (seq_state k).m_primitive_block =
      ⟨[], StringTable.init, Option.some (seq_dense k),
        PrimitiveGroupType.dense, k⟩ from rfl,
    add_dense_node_seq k h1,
    show (seq_state k).m_output_queue = ([] : List BlockSnapshot) from rfl]
  rfl

theorem run_seq_nodes (k : Nat) (h1 : 1 ≤ k) (h2 : k ≤ 8000) :
    PBFOutputFormat.run_nodes (PBFOutputFormat.init opts_no_metadata)
      (seq_nodes k) = seq_state k := by
  induction k with
  | zero => omega
  | succ k ih =>
    by_cases hk : k = 0
    · subst hk
      simp [PBFOutputFormat.run_nodes, seq_nodes, List.range_succ,
        List.range_zero,
        PBFOutputFormat.node, PBFOutputFormat.switch_primitive_block_type,
        PBFOutputFormat.store_primitive_block, PBFOutputFormat.init,
        PrimitiveBlock.init, PrimitiveBlock.reset, PrimitiveBlock.can_add,
        PrimitiveBlock.add_dense_node, DenseNodes.add_node, DenseNodes.init,
        DeltaEncode.update, add_tag_pairs, seq_node, seq_state, seq_dense,
        opts_no_metadata, metadata_options.none_set]
    · have hk1 : 1 ≤ k := by omega
      rw [seq_nodes_succ]
      unfold PBFOutputFormat.run_nodes
      rw [List.foldl_append]
      have hrun : List.foldl PBFOutputFormat.node
          (PBFOutputFormat.init opts_no_metadata) (seq_nodes k) = seq_state k :=
        ih hk1 (by omega)
      rw [hrun]
      simpa using seq_step k hk1 (by omega)

/-- The dense buffer of the second block of the 8001-node scenario: the
delta encoder state restarted from zero, so the single id entry is the
absolute id 8001. -/
def seq_dense_8001 : DenseNodes :=
  ⟨[8001], [], [], [], [], [], [], [lonlat2int 1], [lonlat2int 2], [0],
   8001, 0, 0, 0, 0, lonlat2int 1, lonlat2int 2⟩

/-- C5: a stream of exactly 8000 sequential nodes produces exactly one
DenseNodes data blob; a stream of 8001 nodes with ids `1 .. 8001` produces
exactly two, where the first blob's ids array has length 8000 and first
element 1, and the second blob's ids array has length 1 and first element
8001 (the id delta encoder restarts from zero in the new block). -/
theorem dense_block_boundary :
    (PBFOutputFormat.write_end (PBFOutputFormat.run_nodes
        (PBFOutputFormat.init opts_no_metadata) (seq_nodes 8000))).m_output_queue =
      [⟨StringTable.init, PrimitiveGroupType.dense, [],
        Option.some (seq_dense 8000)⟩] ∧
    (PBFOutputFormat.write_end (PBFOutputFormat.run_nodes
        (PBFOutputFormat.init opts_no_metadata) (seq_nodes 8001))).m_output_queue =
      [⟨StringTable.init, PrimitiveGroupType.dense, [],
        Option.some (seq_dense 8000)⟩,
       ⟨StringTable.init, PrimitiveGroupType.dense, [],
        Option.some seq_dense_8001⟩] ∧
    (seq_dense 8000).m_ids.length = 8000 ∧
    (seq_dense 8000).m_ids.head? = Option.some 1 ∧
    seq_dense_8001.m_ids.length = 1 ∧
    seq_dense_8001.m_ids.head? = Option.some 8001 := by
  have hrun8000 := run_seq_nodes 8000 (by norm_num) (by norm_num)
  have hids8000 : (seq_dense 8000).m_ids = 1 :: List.replicate 7999 1 := rfl
  have hcant : (seq_state 8000).m_primitive_block.can_add
      PrimitiveGroupType.dense = false := by
    refine Bool.eq_false_iff.2 fun habs => ?_
    have h := ((can_add_iff _ _).1 habs).2.1
    rw [show (seq_state 8000).m_primitive_block.m_count = 8000 from rfl] at h
    rw [max_entities_per_block] at h
    omega
  have hnode : PBFOutputFormat.node (seq_state 8000) (seq_node 8001) =
      ⟨opts_no_metadata,
       ⟨[], StringTable.init, Option.some seq_dense_8001,
        PrimitiveGroupType.dense, 1⟩,
       [⟨StringTable.init, PrimitiveGroupType.dense, [],
         Option.some (seq_dense 8000)⟩]⟩ := by
    simp only [PBFOutputFormat.node,
      show (seq_state 8000).m_options.use_dense_nodes = true from rfl, if_true,
      PBFOutputFormat.switch_primitive_block_type, hcant, Bool.false_eq_true,
      if_false]
    simp [PBFOutputFormat.store_primitive_block, PrimitiveBlock.reset,
      PrimitiveBlock.add_dense_node, DenseNodes.add_node, DenseNodes.init,
      DeltaEncode.update, add_tag_pairs, seq_node, seq_state, seq_dense_8001,
      opts_no_metadata, metadata_options.none_set, StringTable.init]
  refine ⟨?_, ?_, ?_, ?_, rfl, rfl⟩
  · rw [hrun8000]
    rfl
  · rw [show (8001 : Nat) = 8000 + 1 from by norm_num, seq_nodes_succ]
    unfold PBFOutputFormat.run_nodes
    rw [List.foldl_append]
    have hrun : List.foldl PBFOutputFormat.node
        (PBFOutputFormat.init opts_no_metadata) (seq_nodes 8000) =
        seq_state 8000 := hrun8000
    rw [hrun, List.foldl_cons, List.foldl_nil, hnode]
    rfl
  · rw [hids8000, List.length_cons, List.length_replicate]
  · rw [hids8000]
    rfl

/-! ## Constructor option parsing (C6) -/

/-- The configuration errors of the constructor path. -/
inductive ConfigError where
  | deprecated_pbf_add_metadata
  | unknown_pbf_compression
  | lz4_not_supported
  | non_integer_compression_level
  | level_without_compression
  | level_out_of_range
deriving DecidableEq, Repr

/-- The option strings the constructor reads from the `File` collaborator;
an absent option is the empty string, as `File::get` returns. -/
structure FileOptions where
  pbf_add_metadata : String
  pbf_dense_nodes : String
  pbf_compression : String
  pbf_compression_level : String
  add_metadata : String
  locations_on_ways : String
  has_multiple_object_versions : Bool
deriving Repr

/-- Modelled from the spec: `get_compression_type` (io/detail/pbf.hpp is
not among the sources).  The `pbf_compression` option accepts `none`,
`zlib` (the default when the option is absent) and `lz4`; an unknown value
is a configuration error, and `lz4` is one when the build lacks lz4
support. -/
def get_compression_type (lz4_supported : Bool) (s : String) :
    Except ConfigError pbf_compression :=
  if s = "" ∨ s = "zlib" then Except.ok pbf_compression.zlib
  else if s = "none" then Except.ok pbf_compression.none
  else if s = "lz4" then
    if lz4_supported then Except.ok pbf_compression.lz4
    else Except.error ConfigError.lz4_not_supported
  else Except.error ConfigError.unknown_pbf_compression

/-- Leading whitespace skipped by `strtol`. -/
def drop_spaces : List Char → List Char
  | [] => []
  | c :: rest => if c = ' ' then drop_spaces rest else c :: rest

/-- The digit run consumed by `strtol`; fails when a non-digit remains
before the end of the string (the constructor's `*end != '\0'` check). -/
def digits_value (acc : Nat) : List Char → Option Nat
  | [] => Option.some acc
  | c :: rest =>
      if c.isDigit then digits_value (acc * 10 + (c.toNat - 48)) rest
      else Option.none

/-- The integer parse the constructor performs on `pbf_compression_level`
with `strtol` followed by the `*end != '\0'` rejection: optional leading
spaces, an optional sign, then digits running to the end of the string. -/
def parse_compression_level (s : String) : Option Int :=
  match drop_spaces s.data with
  | [] => Option.none
  | '-' :: rest =>
      if rest = [] then Option.none
      else (digits_value 0 rest).map fun n => -(n : Int)
  | '+' :: rest =>
      if rest = [] then Option.none
      else (digits_value 0 rest).map fun n => (n : Int)
  | l => (digits_value 0 l).map fun n => (n : Int)

/-- Modelled from the spec: `zlib_check_compression_level` (io/detail/zlib.hpp
is not among the sources): the zlib codec accepts levels `-1` (the codec
default) through `9`; anything else is a configuration error. -/
def zlib_check_compression_level (v : Int) : Except ConfigError Unit :=
  if v < -1 ∨ v > 9 then Except.error ConfigError.level_out_of_range
  else Except.ok ()

/-- Modelled from the spec: `lz4_check_compression_level` (io/detail/lz4.hpp
is not among the sources): levels `0` through `16`. -/
def lz4_check_compression_level (v : Int) : Except ConfigError Unit :=
  if v < 0 ∨ v > 16 then Except.error ConfigError.level_out_of_range
  else Except.ok ()

/-- Modelled from the spec: the zlib codec's default level. -/
def zlib_default_compression_level : Int := -1

/-- Modelled from the spec: the lz4 codec's default level. -/
def lz4_default_compression_level : Int := 0

/-- Modelled from the spec: parsing the `add_metadata` option into flags
(osm/metadata_options.hpp is not among the sources), reduced to the flag
sets used here: empty, `all` or `true` enable everything, anything else is
treated as disabling everything. -/
def parse_metadata_options (s : String) : metadata_options :=
  if s = "" ∨ s = "all" ∨ s = "true" then metadata_options.all_set
  else metadata_options.none_set

/-- `File::is_not_false` (the `File` collaborator is external): every value
except `false`/`no`/`0` counts as true. -/
def is_not_false (s : String) : Bool :=
  !(s = "false" || s = "no" || s = "0")

/-- `File::is_true`: only `true`/`yes`/`1` count as true. -/
def is_true (s : String) : Bool :=
  s = "true" || s = "yes" || s = "1"

/-- The constructor `PBFOutputFormat::PBFOutputFormat`
(pbf_output_format.hpp lines 530-579): reject the deprecated
`pbf_add_metadata` option; parse the options; when `pbf_compression_level`
is absent take the selected codec's default, otherwise parse it as an
integer, reject it when compression is `none`, and range-check it for the
selected codec.  Every error is returned before any entity can be
written (the function either fails or returns the parsed options). -/
def mkPBFOutputFormat (lz4_supported : Bool) (f : FileOptions) :
    Except ConfigError pbf_output_options := do
  if f.pbf_add_metadata ≠ "" then
    throw ConfigError.deprecated_pbf_add_metadata
  let use_dense_nodes := is_not_false f.pbf_dense_nodes
  let use_compression ← get_compression_type lz4_supported f.pbf_compression
  let add_metadata := parse_metadata_options f.add_metadata
  let add_historical_information_flag := f.has_multiple_object_versions
  let add_visible_flag := f.has_multiple_object_versions
  let locations_on_ways := is_true f.locations_on_ways
  let compression_level ←
    if f.pbf_compression_level = "" then
      match use_compression with
      | pbf_compression.none => pure 0
      | pbf_compression.zlib => pure zlib_default_compression_level
      | pbf_compression.lz4 => pure lz4_default_compression_level
    else
      match parse_compression_level f.pbf_compression_level with
      | Option.none => throw ConfigError.non_integer_compression_level
      | Option.some val =>
        match use_compression with
        | pbf_compression.none => throw ConfigError.level_without_compression
        | pbf_compression.zlib => do
            let _ ← zlib_check_compression_level val
            pure val
        | pbf_compression.lz4 => do
            let _ ← lz4_check_compression_level val
            pure val
  pure ⟨add_metadata, compression_level, use_compression, use_dense_nodes,
    add_historical_information_flag, add_visible_flag, locations_on_ways⟩

theorem except_throw {ε α : Type} (e : ε) :
    (throw e : Except ε α) = Except.error e := rfl

theorem except_pure {ε α : Type} (a : α) :
    (pure a : Except ε α) = Except.ok a := rfl

theorem except_bind_error {ε α β : Type} (e : ε) (f : α → Except ε β) :
    (Except.error e : Except ε α) >>= f = Except.error e := rfl

theorem except_bind_ok {ε α β : Type} (a : α) (f : α → Except ε β) :
    (Except.ok a : Except ε α) >>= f = f a := rfl

theorem except_map_error {ε α β : Type} (e : ε) (g : α → β) :
    g <$> (Except.error e : Except ε α) = Except.error e := rfl

theorem except_map_ok {ε α β : Type} (a : α) (g : α → β) :
    g <$> (Except.ok a : Except ε α) = Except.ok (g a) := rfl

/-- C6: every configuration error — a deprecated option being present, a
non-integer `pbf_compression_level`, a level set while compression is
`none`, a level out of range for the selected codec (zlib shown), and
`pbf_compression=lz4` without lz4 support — is raised synchronously by the
constructor, which fails before any entity can be written. -/
theorem constructor_raises_config_errors :
    (∀ (lz4s : Bool) (f : FileOptions), f.pbf_add_metadata ≠ "" →
      mkPBFOutputFormat lz4s f =
        Except.error ConfigError.deprecated_pbf_add_metadata) ∧
    (∀ (lz4s : Bool) (f : FileOptions) (c : pbf_compression),
      f.pbf_add_metadata = "" →
      get_compression_type lz4s f.pbf_compression = Except.ok c →
      f.pbf_compression_level ≠ "" →
      parse_compression_level f.pbf_compression_level = Option.none →
      mkPBFOutputFormat lz4s f =
        Except.error ConfigError.non_integer_compression_level) ∧
    (∀ (lz4s : Bool) (f : FileOptions) (v : Int),
      f.pbf_add_metadata = "" →
      get_compression_type lz4s f.pbf_compression =
        Except.ok pbf_compression.none →
      f.pbf_compression_level ≠ "" →
      parse_compression_level f.pbf_compression_level = Option.some v →
      mkPBFOutputFormat lz4s f =
        Except.error ConfigError.level_without_compression) ∧
    (∀ (lz4s : Bool) (f : FileOptions) (v : Int),
      f.pbf_add_metadata = "" →
      get_compression_type lz4s f.pbf_compression =
        Except.ok pbf_compression.zlib →
      f.pbf_compression_level ≠ "" →
      parse_compression_level f.pbf_compression_level = Option.some v →
      (v < -1 ∨ v > 9) →
      mkPBFOutputFormat lz4s f =
        Except.error ConfigError.level_out_of_range) ∧
    (∀ f : FileOptions,
      f.pbf_add_metadata = "" →
      f.pbf_compression = "lz4" →
      mkPBFOutputFormat false f =
        Except.error ConfigError.lz4_not_supported) := by
  refine ⟨?_, ?_, ?_, ?_, ?_⟩
  · intro lz4s f h
    simp [mkPBFOutputFormat, h, except_throw, except_pure, except_bind_error,
      except_bind_ok, except_map_error, except_map_ok]
  · intro lz4s f c h1 h2 h3 h4
    simp [mkPBFOutputFormat, h1, h2, h3, h4, except_throw, except_pure,
      except_bind_error, except_bind_ok, except_map_error, except_map_ok]
  · intro lz4s f v h1 h2 h3 h4
    simp [mkPBFOutputFormat, h1, h2, h3, h4, except_throw, except_pure,
      except_bind_error, except_bind_ok, except_map_error, except_map_ok]
  · intro lz4s f v h1 h2 h3 h4 h5
    simp [mkPBFOutputFormat, h1, h2, h3, h4, zlib_check_compression_level, h5,
      except_throw, except_pure, except_bind_error, except_bind_ok,
      except_map_error, except_map_ok]
  · intro f h1 h2
    simp [mkPBFOutputFormat, h1, h2, get_compression_type, except_throw,
      except_pure, except_bind_error, except_bind_ok, except_map_error,
      except_map_ok]

/-- Witness for C6: five concrete misconfigurations, one per error. -/
theorem constructor_raises_config_errors_witness :
    mkPBFOutputFormat true ⟨"yes", "", "", "", "", "", false⟩ =
      Except.error ConfigError.deprecated_pbf_add_metadata ∧
    mkPBFOutputFormat true ⟨"", "", "", "abc", "", "", false⟩ =
      Except.error ConfigError.non_integer_compression_level ∧
    mkPBFOutputFormat true ⟨"", "", "none", "5", "", "", false⟩ =
      Except.error ConfigError.level_without_compression ∧
    mkPBFOutputFormat true ⟨"", "", "", "100", "", "", false⟩ =
      Except.error ConfigError.level_out_of_range ∧
    mkPBFOutputFormat false ⟨"", "", "lz4", "", "", "", false⟩ =
      Except.error ConfigError.lz4_not_supported := by
  refine ⟨constructor_raises_config_errors.1 true _ (by decide),
    constructor_raises_config_errors.2.1 true _ pbf_compression.zlib rfl
      rfl (by decide) (by decide),
    constructor_raises_config_errors.2.2.1 true _ 5 rfl rfl
      (by decide) (by decide),
    constructor_raises_config_errors.2.2.2.1 true _ 100 rfl rfl
      (by decide) (by decide) (by norm_num),
    constructor_raises_config_errors.2.2.2.2 _ rfl rfl⟩

end Osmium
